import Mathlib

/-!
Verification of the ccli argument-parsing library (ccli.h, cli.h).

This file gives a shallow embedding of the parsing and matching engine of the
ccli library. Option tables are lists of `COption` records whose `params`
field carries the same bit-packed metadata as the C `uint16_t params` field;
sentinel-terminated C arrays become Lean lists (the sentinel entry is
dropped). The destination storage written through `void*` or the `cli_data`
union becomes the `CData` sum carried in the record. Process-terminating
errors (`ccli_fatal*`, `ccli_panic*`) become `Except`/`Option` error values of
type `CErr`; a successful early exit after help rendering becomes the
`ParseResult.help` constructor (exit status 0, table returned untouched).
`strtol`/`strtoll` (64-bit long) are modelled by `strtolModel`, including
whitespace and sign handling, the `0x` prefix for base 16, saturation with
the ERANGE flag, and the `end_ptr` position as a consumed-character count.
Definitions named `ccli_...` / `ccli__...` follow src/ccli.h; the ones named
with a leading underscore (`_cli_...`) follow the cli.h revision (the
mutual-exclusion machinery exists only there; its bit masks and accessors are
identical to ccli.h's, so the same accessor definitions are reused).
-/

/-- Value stored in an option's destination storage (the C `void*` target or
the `cli_data` union). Exactly one arm is meaningful per option kind. -/
inductive CData where
  | boolData (b : Bool)
  | strData (s : String)
  | numData (n : Int)
  | unumData (n : Nat)
deriving DecidableEq, Repr

/-- One option descriptor, mirroring `ccli_option`. `params` is the packed
`uint16_t` metadata; `arg_desc` is `none` for a C NULL. The mandatory
`long_arg` (NULL is rejected by validation in C) is modelled as a plain
string. -/
structure COption where
  short_arg : Char
  long_arg : String
  params : Nat
  data : CData
  desc : String
  arg_desc : Option String
deriving DecidableEq, Repr

/-- One subcommand descriptor, mirroring `ccli_command`. -/
structure CCommand where
  command : String
  desc : String
deriving DecidableEq, Repr

/-- One mutual-exclusion pair, mirroring cli.h's `cli_exclusion`. `other` is
an `Option` because the C field may be NULL in a malformed entry. -/
structure CExclusion where
  one : String
  other : Option String
  satisfied : Bool
deriving DecidableEq, Repr

/-- Result of classifying a token as a short option, mirroring
`ccli_short_opt_kind`. -/
inductive ShortOptKind where
  | short_none
  | short_single
  | short_multiple
deriving DecidableEq, Repr

/-- The fatal conditions of the engine. Each constructor corresponds to one
`ccli_fatal*`/`ccli_panic*` call site and carries the data interpolated into
the C message. -/
inductive CErr where
  | tooManyPositionals (expected got : Nat)
  | tooFewPositionals (expected got : Nat)
  | stringTooLong (name : String)
  | invalidNumber (name arg : String)
  | missingArgument (name : String)
  | invalidUnsigned (name arg : String)
  | unknownArgument (name : String)
  | excessPositional (arg : String)
  | multipleShorthand
  | invalidFlagUsage (name : String)
  | panicUnrecognized
  | panicArgv
  | configArgDesc (name : String)
  | panicExclusionNull
  | panicExclusionEmpty
  | exclusionBothMissing (one other : String)
  | exclusionBothGiven (one other : String)
  | missingRequired (name : String)
deriving DecidableEq, Repr

/-- Overall outcome of `ccli_parse_opts`: normal return (updated table and
active subcommand name), successful process exit after rendering help, or
process termination with exit code 1. -/
inductive ParseResult where
  | ok (options : List COption) (subcommand : Option String)
  | help (options : List COption)
  | fatal (e : CErr)
deriving DecidableEq, Repr

/-! ## Bit-packed option metadata (ccli.h lines 52-79, cli.h lines 43-187) -/

def CCLI_ARG_REQ_MASK : Nat := 32768
def CCLI_ARG_POS_MASK : Nat := 16384
def CCLI_ARG_MAT_MASK : Nat := 8192
def CCLI_ARG_TYP_MASK : Nat := 31
def CCLI_ARG_CMD_MASK : Nat := 8160

def ccli_boolean : Nat := 1
def ccli_string : Nat := 2
def ccli_number : Nat := 4
def ccli_unumber : Nat := 8

/-- The `ccli_params`/`CLI_ARG_MAKE` macro. `req` and `pos` are passed as C
booleans (0/1). The C expression computes in `int`; `4294959103` is the
32-bit value of `~CCLI_ARG_MAT_MASK`. -/
def ccli_params (typ : Nat) (req pos : Bool) (cmd : Nat) : Nat :=
  (((cond req 1 0) <<< 15) ||| ((cond pos 1 0) <<< 14) ||| (cmd <<< 5) ||| typ) &&& 4294959103

/-- Truncation performed when the `int`-valued macro result is stored into
the `uint16_t params` struct field. -/
def storeU16 (n : Nat) : Nat := n % 65536

def ccli_option_type (opt : COption) : Nat := opt.params &&& CCLI_ARG_TYP_MASK

def ccli_option_subcmd (opt : COption) : Nat := (opt.params &&& CCLI_ARG_CMD_MASK) >>> 5

def ccli_option_is_global (opt : COption) : Bool :=
  ((opt.params &&& CCLI_ARG_CMD_MASK) >>> 5) == 0

def ccli_option_is_root (opt : COption) : Bool :=
  ((opt.params &&& CCLI_ARG_CMD_MASK) >>> 5) == 1

def ccli_option_is_required (opt : COption) : Bool :=
  (opt.params &&& CCLI_ARG_REQ_MASK) == CCLI_ARG_REQ_MASK

def ccli_option_is_positional (opt : COption) : Bool :=
  (opt.params &&& CCLI_ARG_POS_MASK) == CCLI_ARG_POS_MASK

def ccli_option_is_matched (opt : COption) : Bool :=
  (opt.params &&& CCLI_ARG_MAT_MASK) == CCLI_ARG_MAT_MASK

def ccli_option_set_matched (opt : COption) : COption :=
  { opt with params := opt.params ||| CCLI_ARG_MAT_MASK }

/-- Helper fixture: an option record whose only interesting field is the
packed `params` value, used to state properties of the accessors. -/
def mkParamsOpt (p : Nat) : COption :=
  { short_arg := '\x00', long_arg := "", params := p,
    data := CData.boolData false, desc := "", arg_desc := none }

/-! ## String helpers (ccli.h lines 423-462) -/

/-- `ccli_streq` on non-NULL strings: plain string equality. -/
def ccli_streq (s1 s2 : String) : Bool := s1 == s2

/-- `ccli_strcontains`. -/
def ccli_strcontains (s : String) (c : Char) : Bool := s.data.any (fun x => x == c)

def stridxAux (c : Char) : Nat → List Char → Int
  | _, [] => -1
  | i, x :: rest => if x == c then Int.ofNat i else stridxAux c (i + 1) rest

/-- `ccli_stridx`: index of the first occurrence of `c`, or -1. -/
def ccli_stridx (s : String) (c : Char) : Int := stridxAux c 0 s.data

/-- Reading `s[i]` from a NUL-terminated C buffer holding `s`: in-range reads
give the character, the first out-of-range read gives the terminator. -/
def charAt0 (s : String) (i : Nat) : Char := (s.data.getD i '\x00')

/-! ## Numeric parsing (ccli.h lines 289-421, cli.h lines 320-450) -/

def I64MAX : Int := 9223372036854775807
def I64MIN : Int := -9223372036854775808
def U64MAX : Nat := 18446744073709551615

/-- Conversion of a signed 64-bit value to `uint64_t` (two's complement). -/
def u64OfInt (v : Int) : Nat := (v % 18446744073709551616).toNat

/-- C `isspace` in the default locale. -/
def isSpaceC (c : Char) : Bool :=
  c == ' ' || c == '\t' || c == '\n' || c == '\x0b' || c == '\x0c' || c == '\r'

/-- Digit value as accepted by `strtol` (0-9, a-f, A-F). -/
def hexDigitVal (c : Char) : Option Nat :=
  if 48 ≤ c.toNat ∧ c.toNat ≤ 57 then some (c.toNat - 48)
  else if 97 ≤ c.toNat ∧ c.toNat ≤ 102 then some (c.toNat - 87)
  else if 65 ≤ c.toNat ∧ c.toNat ≤ 70 then some (c.toNat - 55)
  else none

def digitValBase (base : Nat) (c : Char) : Option Nat :=
  match hexDigitVal c with
  | some v => if v < base then some v else none
  | none => none

/-- Longest run of base-`base` digits: returns the digit count and the
accumulated magnitude. -/
def digitsRunAux (base : Nat) (acc count : Nat) : List Char → Nat × Nat
  | [] => (count, acc)
  | c :: rest =>
    match digitValBase base c with
    | some v => digitsRunAux base (acc * base + v) (count + 1) rest
    | none => (count, acc)

/-- Result of one `strtol`/`strtoll` call: the (saturated) value, the
position of `end_ptr` as a count of consumed characters (0 when no
conversion was performed, in which case `end_ptr == num`), and whether
`errno` was set to ERANGE. -/
structure StrtolRes where
  value : Int
  endIdx : Nat
  erange : Bool
deriving DecidableEq, Repr

/-- Model of glibc `strtol`/`strtoll` on a 64-bit platform for the bases the
library uses (2, 10, 16): skip whitespace, optional sign, optional `0x`/`0X`
prefix for base 16 (only when followed by a hex digit), longest digit run,
saturation to the int64 range with ERANGE. -/
def strtolModel (cs : List Char) (base : Nat) : StrtolRes :=
  let ws := (cs.takeWhile isSpaceC).length
  let afterWs := cs.drop ws
  let signLen := match afterWs with
    | '-' :: _ => 1
    | '+' :: _ => 1
    | _ => 0
  let neg := match afterWs with
    | '-' :: _ => true
    | _ => false
  let afterSign := afterWs.drop signLen
  let pfxLen :=
    if base == 16 then
      match afterSign with
      | '0' :: x :: d :: _ =>
        if (x == 'x' || x == 'X') && (hexDigitVal d).isSome then 2 else 0
      | _ => 0
    else 0
  let body := afterSign.drop pfxLen
  let (ndigits, mag) := digitsRunAux base 0 0 body
  if ndigits == 0 then { value := 0, endIdx := 0, erange := false }
  else
    let signed : Int := if neg then -(mag : Int) else (mag : Int)
    if signed > I64MAX then { value := I64MAX, endIdx := ws + signLen + pfxLen + ndigits, erange := true }
    else if signed < I64MIN then { value := I64MIN, endIdx := ws + signLen + pfxLen + ndigits, erange := true }
    else { value := signed, endIdx := ws + signLen + pfxLen + ndigits, erange := false }

/-- `ccli_try_parse_int` (ccli.h lines 289-354): decimal `strtol`, then a
`0x`-guarded base-16 retry (note: its saturation check drops the `errno`
conjunct), then a `0b`-guarded base-2 retry on the string shifted past the
prefix. Returns the stored `int64_t` on success. -/
def ccli_try_parse_int (num : String) : Option Int :=
  let cs := num.data
  let num_len := cs.length
  let r := strtolModel cs 10
  let failedDec : Bool :=
    r.endIdx == 0 || (r.erange && (r.value == I64MAX || r.value == I64MIN)) ||
      r.endIdx != num_len
  if !failedDec then some r.value
  else
    let hexBlocked : Bool :=
      decide (num_len ≤ 2) || !(cs.getD 0 '\x00' == '0') || !(cs.getD 1 '\x00' == 'x')
    let rh := strtolModel cs 16
    let failedHex : Bool :=
      hexBlocked || rh.endIdx == 0 || (rh.value == I64MAX || rh.value == I64MIN) ||
        rh.endIdx != num_len
    if !failedHex then some rh.value
    else
      if decide (num_len ≤ 2) || !(cs.getD 0 '\x00' == '0') || !(cs.getD 1 '\x00' == 'b') then
        none
      else
        let cs2 := cs.drop 2
        let rb := strtolModel cs2 2
        let failedBin : Bool :=
          rb.endIdx == 0 || (rb.value == I64MAX || rb.value == I64MIN) ||
            rb.endIdx != cs2.length
        if !failedBin then some rb.value else none

/-- `ccli_try_parse_uint` (ccli.h lines 356-421): the decimal pass calls the
SIGNED `strtoll` and compares the value, reinterpreted as `uint64_t`,
against `UINT64_MAX`; the hex and binary retries call the signed `strtol`
likewise. Returns the stored `uint64_t` on success. -/
def ccli_try_parse_uint (num : String) : Option Nat :=
  let cs := num.data
  let num_len := cs.length
  let r := strtolModel cs 10
  let parsed := u64OfInt r.value
  let failedDec : Bool :=
    r.endIdx == 0 || (r.erange && (parsed == U64MAX || parsed == U64MAX)) ||
      r.endIdx != num_len
  if !failedDec then some parsed
  else
    let hexBlocked : Bool :=
      decide (num_len ≤ 2) || !(cs.getD 0 '\x00' == '0') || !(cs.getD 1 '\x00' == 'x')
    let rh := strtolModel cs 16
    let parsedH := u64OfInt rh.value
    let failedHex : Bool :=
      hexBlocked || rh.endIdx == 0 || (parsedH == U64MAX || parsedH == U64MAX) ||
        rh.endIdx != num_len
    if !failedHex then some parsedH
    else
      if decide (num_len ≤ 2) || !(cs.getD 0 '\x00' == '0') || !(cs.getD 1 '\x00' == 'b') then
        none
      else
        let cs2 := cs.drop 2
        let rb := strtolModel cs2 2
        let parsedB := u64OfInt rb.value
        if rb.endIdx == 0 || (parsedB == U64MAX || parsedB == U64MAX) ||
            rb.endIdx != cs2.length then none
        else some parsedB

/-! ## Token classification (ccli.h lines 654-680) -/

/-- `ccli__is_long_opt`: length at least 3 and the first two characters are
both dashes. -/
def ccli__is_long_opt (opt : String) : Bool :=
  if opt.length < 3 then false
  else (charAt0 opt 0 == '-') && (charAt0 opt 0 == charAt0 opt 1)

/-- `ccli__short_opt_kind`. -/
def ccli__short_opt_kind (opt : String) : ShortOptKind :=
  if opt.length < 2 then ShortOptKind.short_none
  else if !(charAt0 opt 0 == '-') then ShortOptKind.short_none
  else if 3 ≤ opt.length then ShortOptKind.short_multiple
  else if (charAt0 opt 0 == '-') && !(charAt0 opt 1 == '-') then ShortOptKind.short_single
  else ShortOptKind.short_none

/-- `ccli__is_option`. -/
def ccli__is_option (opt : String) : Bool :=
  ccli__is_long_opt opt || !(ccli__short_opt_kind opt == ShortOptKind.short_none)

/-- `ccli__long_opt_eq`: the token equals `--` followed by the long name. -/
def ccli__long_opt_eq (argv_opt long_opt : String) : Bool :=
  match argv_opt.data with
  | '-' :: '-' :: rest => ccli_streq (String.mk rest) long_opt
  | _ => false

/-! ## Scope resolution and table scans (ccli.h lines 464-521, 744-784) -/

/-- `ccli__validate_options`: a non-boolean, non-positional option must carry
an `arg_desc` (the long-name NULL check is unrepresentable here since
`long_arg` is modelled as a plain string). -/
def ccli__validate_options : List COption → Option CErr
  | [] => none
  | opt :: rest =>
    if !(ccli_option_type opt == ccli_boolean) && !(ccli_option_is_positional opt) &&
        opt.arg_desc == none then
      some (CErr.configArgDesc opt.long_arg)
    else ccli__validate_options rest

/-- `ccli__arg_relevant`: global options are always relevant, root options
only when no subcommand is active, subcommand options only under their own
subcommand. -/
def ccli__arg_relevant (opt : COption) (subcommands : List CCommand)
    (subcommand : Option String) : Bool :=
  if ccli_option_is_global opt then true
  else if ccli_option_is_root opt then subcommand == none
  else
    match subcommands.get? (ccli_option_subcmd opt - 2) with
    | some cmd => some cmd.command == subcommand
    | none => false

/-- `ccli__pos_args_len`: number of in-scope positional descriptors. -/
def ccli__pos_args_len (options : List COption) (subcommands : List CCommand)
    (subcommand : Option String) : Nat :=
  options.countP (fun opt =>
    ccli_option_is_positional opt && ccli__arg_relevant opt subcommands subcommand)

/-- `ccli__check_unmatched` (ccli.h lines 744-757): first in-scope unmatched
required option, in table order, is fatal. -/
def ccli__check_unmatched (cmd_idx : Nat) : List COption → Option CErr
  | [] => none
  | opt :: rest =>
    if !(ccli_option_is_global opt) && !(ccli_option_subcmd opt == cmd_idx) then
      ccli__check_unmatched cmd_idx rest
    else if !(ccli_option_is_matched opt) && ccli_option_is_required opt then
      some (CErr.missingRequired opt.long_arg)
    else ccli__check_unmatched cmd_idx rest

def ccli__find_help_go : List String → Bool
  | [] => false
  | arg :: rest =>
    if ccli_streq arg "--" || ccli_streq arg "-" then false
    else if ccli_streq arg "--help" || ccli_streq arg "-h" then true
    else ccli__find_help_go rest

/-- `ccli__find_help` (ccli.h lines 759-770): scan `argv[1..]`; a `--` or `-`
token stops the scan, a `--help` or `-h` token renders help and exits 0.
Returns whether help fires (the command/option arguments only affect the
rendered text). -/
def ccli__find_help (args : List String) : Bool := ccli__find_help_go (args.drop 1)

def ccli__run_command_go (arg1 : String) : Nat → List CCommand → Nat
  | _, [] => 1
  | i, cmd :: rest =>
    if ccli_streq cmd.command arg1 then i + 2 else ccli__run_command_go arg1 (i + 1) rest

/-- `ccli__run_command` (ccli.h lines 772-784): 1 for the root command, i+2
for the subcommand whose name equals `argv[1]`. -/
def ccli__run_command (subcommands : List CCommand) (args : List String) : Nat :=
  if args.length == 1 then 1
  else ccli__run_command_go (args.getD 1 "") 0 subcommands

/-! ## Positional assignment (ccli.h lines 682-738 and 893-927) -/

/-- The shared value-storing switch for a positional assignment (this exact
switch appears verbatim both in `ccli__parse_remaining_positionals` and in
the positional branch of `ccli_parse_opts`). -/
def ccli__store_positional (opt : COption) (arg : String) : Except CErr CData :=
  if ccli_option_type opt == ccli_boolean then Except.ok (CData.boolData true)
  else if ccli_option_type opt == ccli_string then
    if 1024 < arg.length then Except.error (CErr.stringTooLong opt.long_arg)
    else Except.ok (CData.strData arg)
  else if ccli_option_type opt == ccli_number then
    match ccli_try_parse_int arg with
    | some v => Except.ok (CData.numData v)
    | none => Except.error (CErr.invalidNumber opt.long_arg arg)
  else if ccli_option_type opt == ccli_unumber then
    match ccli_try_parse_uint arg with
    | some v => Except.ok (CData.unumData v)
    | none => Except.error (CErr.invalidNumber opt.long_arg arg)
  else Except.error CErr.panicUnrecognized

/-- Inner option sweep of `ccli__parse_remaining_positionals`: every
unmatched positional descriptor (no scope filter here) is marked matched and
receives the token's value. -/
def ccli__assign_positional_all (arg : String) : List COption → Except CErr (List COption)
  | [] => Except.ok []
  | opt :: rest =>
    if !(ccli_option_is_matched opt) && ccli_option_is_positional opt then
      match ccli__store_positional opt arg with
      | Except.error e => Except.error e
      | Except.ok d =>
        match ccli__assign_positional_all arg rest with
        | Except.error e => Except.error e
        | Except.ok rest2 =>
          Except.ok (ccli_option_set_matched { opt with data := d } :: rest2)
    else
      match ccli__assign_positional_all arg rest with
      | Except.error e => Except.error e
      | Except.ok rest2 => Except.ok (opt :: rest2)

/-- Token loop of `ccli__parse_remaining_positionals`, started at the index
of the `--`/`-` sentinel. Faithfully keeps the C skip condition
`ccli_streq(arg, "--") || ccli_streq(arg, "-") == 0`, whose second disjunct
compares the boolean to 0 and therefore skips every token that is NOT the
literal string `-`. -/
def ccli__remaining_loop (args : List String) : Nat → Nat → List COption → Except CErr (List COption)
  | 0, _, options => Except.ok options
  | fuel + 1, argc_idx, options =>
    if argc_idx < args.length then
      let arg := args.getD argc_idx ""
      if ccli_streq arg "--" || !(ccli_streq arg "-") then
        ccli__remaining_loop args fuel (argc_idx + 1) options
      else
        match ccli__assign_positional_all arg options with
        | Except.error e => Except.error e
        | Except.ok options2 => ccli__remaining_loop args fuel (argc_idx + 1) options2
    else Except.ok options

/-- `ccli__parse_remaining_positionals` (ccli.h lines 682-738). The trailing
too-few-positionals check of the C code is dead (the loop always exits with
`argc_idx == argc`) and is omitted. -/
def ccli__parse_remaining_positionals (options : List COption) (subcommands : List CCommand)
    (subcommand : Option String) (argc_idx : Nat) (args : List String) :
    Except CErr (List COption) :=
  let argc := args.length
  let pos_arg_count := ccli__pos_args_len options subcommands subcommand
  if pos_arg_count < argc - argc_idx - 1 then
    Except.error (CErr.tooManyPositionals pos_arg_count (argc - argc_idx - 1))
  else ccli__remaining_loop args (argc - argc_idx) argc_idx options

/-! ## The equals form (ccli.h lines 786-851) -/

/-- Option sweep of `ccli__parse_equals`. The loop has no break: every
in-scope option whose short name equals `opt_str[1]` or whose long name
matches receives the value. The string arm performs a bare `strcpy` with no
length bound. Returns the updated table and the `matched_arg` flag. -/
def ccli__parse_equals_loop (opt_str param : String) (cmd_idx : Nat) :
    List COption → Except CErr (List COption × Bool)
  | [] => Except.ok ([], false)
  | opt :: rest =>
    if !(ccli_option_is_global opt) && !(ccli_option_subcmd opt == cmd_idx) then
      match ccli__parse_equals_loop opt_str param cmd_idx rest with
      | Except.error e => Except.error e
      | Except.ok (rest2, m) => Except.ok (opt :: rest2, m)
    else if charAt0 opt_str 1 == opt.short_arg || ccli__long_opt_eq opt_str opt.long_arg then
      if ccli_option_type opt == ccli_boolean then
        Except.error (CErr.invalidFlagUsage opt.long_arg)
      else if ccli_option_type opt == ccli_string then
        match ccli__parse_equals_loop opt_str param cmd_idx rest with
        | Except.error e => Except.error e
        | Except.ok (rest2, _) =>
          Except.ok (ccli_option_set_matched { opt with data := CData.strData param } :: rest2, true)
      else if ccli_option_type opt == ccli_number then
        match ccli_try_parse_int param with
        | some v =>
          match ccli__parse_equals_loop opt_str param cmd_idx rest with
          | Except.error e => Except.error e
          | Except.ok (rest2, _) =>
            Except.ok (ccli_option_set_matched { opt with data := CData.numData v } :: rest2, true)
        | none => Except.error (CErr.invalidNumber opt.long_arg param)
      else if ccli_option_type opt == ccli_unumber then
        match ccli_try_parse_uint param with
        | some v =>
          match ccli__parse_equals_loop opt_str param cmd_idx rest with
          | Except.error e => Except.error e
          | Except.ok (rest2, _) =>
            Except.ok (ccli_option_set_matched { opt with data := CData.unumData v } :: rest2, true)
        | none => Except.error (CErr.invalidNumber opt.long_arg param)
      else Except.error CErr.panicUnrecognized
    else
      match ccli__parse_equals_loop opt_str param cmd_idx rest with
      | Except.error e => Except.error e
      | Except.ok (rest2, m) => Except.ok (opt :: rest2, m)

/-- `ccli__parse_equals` (ccli.h lines 786-851): split the token at the first
`=` into `opt_str` (before) and `param` (after), sweep the table, and fail
with an unknown-argument error naming `opt_str` when nothing matched. -/
def ccli__parse_equals (options : List COption) (arg : String) (cmd_idx : Nat) :
    Except CErr (List COption) :=
  let pre_len := (ccli_stridx arg '=').toNat
  let opt_str := String.mk (arg.data.take pre_len)
  let param := String.mk (arg.data.drop (pre_len + 1))
  match ccli__parse_equals_loop opt_str param cmd_idx options with
  | Except.error e => Except.error e
  | Except.ok (options2, matched_arg) =>
    if matched_arg then Except.ok options2
    else Except.error (CErr.unknownArgument opt_str)

/-! ## The main matching loop (ccli.h lines 853-995) -/

/-- Inner option sweep of `ccli_parse_opts` for one token (ccli.h lines
888-982). Scans the table by index (the loop has no break, so one positional
token is offered to every descriptor and value consumption can advance
`argc_idx` inside the sweep). `fuel` is the number of indices left to visit;
the engine calls it with `fuel = options.length` and `opt_search = 0`.
Returns the updated table, the possibly advanced token cursor, and the
`matched_arg` flag. -/
def ccli__parse_opts_inner (args : List String) (cmd_idx : Nat) (arg : String)
    (is_long : Bool) (short_opt : ShortOptKind) (is_positional : Bool) :
    Nat → Nat → List COption → Nat → Bool → Except CErr (List COption × Nat × Bool)
  | 0, _, options, argc_idx, matched_arg => Except.ok (options, argc_idx, matched_arg)
  | fuel + 1, opt_search, options, argc_idx, matched_arg =>
    if hlt : opt_search < options.length then
      let opt := options[opt_search]
      if !(ccli_option_is_global opt) && !(ccli_option_subcmd opt == cmd_idx) then
        ccli__parse_opts_inner args cmd_idx arg is_long short_opt is_positional
          fuel (opt_search + 1) options argc_idx matched_arg
      else if is_positional && ccli_option_is_positional opt && !(ccli_option_is_matched opt) then
        match ccli__store_positional opt arg with
        | Except.error e => Except.error e
        | Except.ok d =>
          ccli__parse_opts_inner args cmd_idx arg is_long short_opt is_positional
            fuel (opt_search + 1)
            (options.set opt_search (ccli_option_set_matched { opt with data := d }))
            argc_idx true
      else if (is_long && ccli__long_opt_eq arg opt.long_arg) ||
          (short_opt == ShortOptKind.short_single && charAt0 arg 1 == opt.short_arg) then
        if ccli_option_type opt == ccli_boolean then
          ccli__parse_opts_inner args cmd_idx arg is_long short_opt is_positional
            fuel (opt_search + 1)
            (options.set opt_search (ccli_option_set_matched { opt with data := CData.boolData true }))
            argc_idx true
        else
          if args.length ≤ argc_idx + 1 || ccli__is_option (args.getD (argc_idx + 1) "") then
            if ccli_option_type opt == ccli_number && argc_idx + 1 < args.length then
              match ccli_try_parse_int (args.getD (argc_idx + 1) "") with
              | some v =>
                ccli__parse_opts_inner args cmd_idx arg is_long short_opt is_positional
                  fuel (opt_search + 1)
                  (options.set opt_search (ccli_option_set_matched { opt with data := CData.numData v }))
                  (argc_idx + 1) true
              | none => Except.error (CErr.missingArgument opt.long_arg)
            else if ccli_option_type opt == ccli_unumber && argc_idx + 1 < args.length then
              Except.error (CErr.invalidUnsigned opt.long_arg (args.getD (argc_idx + 1) ""))
            else Except.error (CErr.missingArgument opt.long_arg)
          else if ccli_option_type opt == ccli_string then
            let value := args.getD (argc_idx + 1) ""
            if 1024 < value.length then Except.error (CErr.stringTooLong opt.long_arg)
            else
              ccli__parse_opts_inner args cmd_idx arg is_long short_opt is_positional
                fuel (opt_search + 1)
                (options.set opt_search (ccli_option_set_matched { opt with data := CData.strData value }))
                (argc_idx + 1) true
          else if ccli_option_type opt == ccli_number then
            match ccli_try_parse_int (args.getD (argc_idx + 1) "") with
            | some v =>
              ccli__parse_opts_inner args cmd_idx arg is_long short_opt is_positional
                fuel (opt_search + 1)
                (options.set opt_search (ccli_option_set_matched { opt with data := CData.numData v }))
                (argc_idx + 1) true
            | none =>
              Except.error (CErr.invalidNumber opt.long_arg (args.getD (argc_idx + 1) ""))
          else if ccli_option_type opt == ccli_unumber then
            match ccli_try_parse_uint (args.getD (argc_idx + 1) "") with
            | some v =>
              ccli__parse_opts_inner args cmd_idx arg is_long short_opt is_positional
                fuel (opt_search + 1)
                (options.set opt_search (ccli_option_set_matched { opt with data := CData.unumData v }))
                (argc_idx + 1) true
            | none =>
              Except.error (CErr.invalidNumber opt.long_arg (args.getD (argc_idx + 1) ""))
          else Except.error CErr.panicUnrecognized
      else if !is_long && short_opt == ShortOptKind.short_multiple then
        Except.error CErr.multipleShorthand
      else
        ccli__parse_opts_inner args cmd_idx arg is_long short_opt is_positional
          fuel (opt_search + 1) options argc_idx matched_arg
    else Except.ok (options, argc_idx, matched_arg)

/-- Outer token loop of `ccli_parse_opts` (ccli.h lines 864-991). A `--`/`-`
sentinel routes to the remaining-positionals pass and ends the loop (the
required-option check that the C code runs there is the same pure
`ccli__check_unmatched` call the wrapper performs on the returned table). -/
def ccli__parse_loop (subcommands : List CCommand) (subcommand : Option String)
    (cmd_idx : Nat) (args : List String) :
    Nat → Nat → List COption → Except CErr (List COption)
  | 0, _, options => Except.ok options
  | fuel + 1, argc_idx, options =>
    if argc_idx < args.length then
      let arg := args.getD argc_idx ""
      if ccli_streq arg "--" || ccli_streq arg "-" then
        ccli__parse_remaining_positionals options subcommands subcommand argc_idx args
      else if ccli_strcontains arg '=' then
        match ccli__parse_equals options arg cmd_idx with
        | Except.error e => Except.error e
        | Except.ok options2 =>
          ccli__parse_loop subcommands subcommand cmd_idx args fuel (argc_idx + 1) options2
      else
        let is_long := ccli__is_long_opt arg
        let short_opt := ccli__short_opt_kind arg
        let is_positional := !is_long && short_opt == ShortOptKind.short_none
        match ccli__parse_opts_inner args cmd_idx arg is_long short_opt is_positional
            options.length 0 options argc_idx false with
        | Except.error e => Except.error e
        | Except.ok (options2, argc_idx2, matched_arg) =>
          if matched_arg then
            ccli__parse_loop subcommands subcommand cmd_idx args fuel (argc_idx2 + 1) options2
          else if is_positional then Except.error (CErr.excessPositional arg)
          else Except.error (CErr.unknownArgument arg)
    else Except.ok options

/-- Tail of `ccli_parse_opts`: on a fatal error the process dies; otherwise
the required-option check runs on the final table (ccli.h lines 879-880 on
the sentinel path, lines 993-994 at the end of the loop — the call is pure,
so running it once on the returned table is equivalent) and the active
subcommand name is returned. -/
def ccli__finish (cmd_idx : Nat) (subcommand : Option String) :
    Except CErr (List COption) → ParseResult
  | Except.error e => ParseResult.fatal e
  | Except.ok options2 =>
    match ccli__check_unmatched cmd_idx options2 with
    | some e => ParseResult.fatal e
    | none => ParseResult.ok options2 subcommand

/-- `ccli_parse_opts` (ccli.h lines 853-995): validate the table, resolve the
active subcommand, scan for an early help request, run the token loop, check
required options, and return the active subcommand name (`none` for root). -/
def ccli_parse_opts (subcommands : List CCommand) (options : List COption)
    (args : List String) : ParseResult :=
  if args.length == 0 then ParseResult.fatal CErr.panicArgv
  else
    match ccli__validate_options options with
    | some e => ParseResult.fatal e
    | none =>
      let cmd_idx := ccli__run_command subcommands args
      let subcommand : Option String :=
        if 1 < cmd_idx then (subcommands.get? (cmd_idx - 2)).map CCommand.command else none
      if ccli__find_help args then ParseResult.help options
      else
        ccli__finish cmd_idx subcommand
          (ccli__parse_loop subcommands subcommand cmd_idx args args.length
            (if 1 < cmd_idx then 2 else 1) options)

/-! ## cli.h validators (cli.h lines 862-962): required-option check with
mutual-exclusion exemption, and the mutual-exclusion check itself. -/

/-- Exemption scan inside cli.h's `_cli_check_unmatched`: the option's long
name appears on either side of some exclusion pair. -/
def _cli_exclusion_exempts (mutual_exclusions : List CExclusion) (long_arg : String) : Bool :=
  mutual_exclusions.any (fun ex => ccli_streq ex.one long_arg || ex.other == some long_arg)

/-- `_cli_check_unmatched` (cli.h lines 862-888): like the ccli version, but
an unmatched required option whose name appears in some exclusion pair is
skipped (the exclusion check is authoritative for it). -/
def _cli_check_unmatched (cmd_idx : Nat) (mutual_exclusions : List CExclusion) :
    List COption → Option CErr
  | [] => none
  | opt :: rest =>
    if !(ccli_option_is_global opt) && !(ccli_option_subcmd opt == cmd_idx) then
      _cli_check_unmatched cmd_idx mutual_exclusions rest
    else if !(ccli_option_is_matched opt) && ccli_option_is_required opt then
      if _cli_exclusion_exempts mutual_exclusions opt.long_arg then
        _cli_check_unmatched cmd_idx mutual_exclusions rest
      else some (CErr.missingRequired opt.long_arg)
    else _cli_check_unmatched cmd_idx mutual_exclusions rest

/-- Option sweep inside `_cli_check_mutual_exclusions` (cli.h lines 935-951):
accumulates the matched flags of the two named options and the conjunction of
their required flags; returns `none` (the `irrelevant` break) as soon as a
non-global option bearing one of the two names has a command field different
from the active one. -/
def _cli_exclusion_scan (cmd_idx : Nat) (one other : String)
    (one_matched other_matched both_required : Bool) :
    List COption → Option (Bool × Bool × Bool)
  | [] => some (one_matched, other_matched, both_required)
  | opt :: rest =>
    if !(ccli_option_is_global opt) && !(ccli_option_subcmd opt == cmd_idx) &&
        (ccli_streq one opt.long_arg || ccli_streq other opt.long_arg) then
      none
    else if ccli_streq one opt.long_arg then
      _cli_exclusion_scan cmd_idx one other (ccli_option_is_matched opt) other_matched
        (both_required && ccli_option_is_required opt) rest
    else if ccli_streq other opt.long_arg then
      _cli_exclusion_scan cmd_idx one other one_matched (ccli_option_is_matched opt)
        (both_required && ccli_option_is_required opt) rest
    else
      _cli_exclusion_scan cmd_idx one other one_matched other_matched both_required rest

/-- `_cli_check_mutual_exclusions` (cli.h lines 918-962): per pair, a missing
or empty name is a panic; an irrelevant pair is skipped; otherwise
neither-matched-and-both-required and both-matched are fatal. -/
def _cli_check_mutual_exclusions (cmd_idx : Nat) (options : List COption) :
    List CExclusion → Option CErr
  | [] => none
  | ex :: rest =>
    match ex.other with
    | none => some CErr.panicExclusionNull
    | some other =>
      if ex.one.length == 0 || other.length == 0 then some CErr.panicExclusionEmpty
      else
        match _cli_exclusion_scan cmd_idx ex.one other false false true options with
        | none => _cli_check_mutual_exclusions cmd_idx options rest
        | some (one_matched, other_matched, both_required) =>
          if one_matched == false && other_matched == false && both_required then
            some (CErr.exclusionBothMissing ex.one other)
          else if one_matched && other_matched then
            some (CErr.exclusionBothGiven ex.one other)
          else _cli_check_mutual_exclusions cmd_idx options rest

/-- What the option sweep of `ccli_parse_opts` does to one descriptor when
the token is positional-shaped: an unmatched in-scope positional descriptor
is marked matched and receives the token's parsed value, everything else is
untouched (the error arm of the inner match is unreachable whenever the
sweep returns successfully). -/
def positionalSweepStep (cmd_idx : Nat) (arg : String) (opt : COption) : COption :=
  if (ccli_option_is_global opt || ccli_option_subcmd opt == cmd_idx) &&
      ccli_option_is_positional opt && !(ccli_option_is_matched opt) then
    match ccli__store_positional opt arg with
    | Except.ok d => ccli_option_set_matched { opt with data := d }
    | Except.error _ => opt
  else opt

/-! ## Fixtures used by the claim theorems -/

/-- A global, optional, positional string option (first in table order). -/
def c1optA : COption :=
  { short_arg := '\x00', long_arg := "alpha",
    params := storeU16 (ccli_params ccli_string false true 0),
    data := CData.strData "", desc := "first positional", arg_desc := none }

/-- A second global, optional, positional string option. -/
def c1optB : COption :=
  { c1optA with long_arg := "beta", desc := "second positional" }

/-- A global, required, positional string option. -/
def c2opt : COption :=
  { short_arg := '\x00', long_arg := "file",
    params := storeU16 (ccli_params ccli_string true true 0),
    data := CData.strData "", desc := "the file", arg_desc := none }

/-- A global named unsigned-integer option. -/
def c4unum : COption :=
  { short_arg := '\x00', long_arg := "num",
    params := storeU16 (ccli_params ccli_unumber false false 0),
    data := CData.unumData 0, desc := "a count", arg_desc := some "N" }

/-- A global named signed-integer option (for the inner-sweep statements). -/
def c4num : COption :=
  { short_arg := '\x00', long_arg := "inum",
    params := storeU16 (ccli_params ccli_number false false 0),
    data := CData.numData 0, desc := "a number", arg_desc := some "N" }

/-- A global named string option (for the inner-sweep statements). -/
def c4str : COption :=
  { short_arg := '\x00', long_arg := "str",
    params := storeU16 (ccli_params ccli_string false false 0),
    data := CData.strData "", desc := "a string", arg_desc := some "S" }

/-- A global named string option called `name`. -/
def c5str : COption :=
  { short_arg := '\x00', long_arg := "name",
    params := storeU16 (ccli_params ccli_string false false 0),
    data := CData.strData "", desc := "a name", arg_desc := some "value" }

/-- A global named signed-integer option called `num`. -/
def c5num : COption :=
  { short_arg := '\x00', long_arg := "num",
    params := storeU16 (ccli_params ccli_number false false 0),
    data := CData.numData 0, desc := "a number", arg_desc := some "N" }

/-- A global named unsigned-integer option called `unum`. -/
def c5unum : COption :=
  { short_arg := '\x00', long_arg := "unum",
    params := storeU16 (ccli_params ccli_unumber false false 0),
    data := CData.unumData 0, desc := "a count", arg_desc := some "N" }

/-- A global boolean option, used to exercise the help scan. -/
def c7opt : COption :=
  { short_arg := 'v', long_arg := "verbose",
    params := storeU16 (ccli_params ccli_boolean false false 0),
    data := CData.boolData false, desc := "verbose output", arg_desc := none }

/-- A required root-scoped boolean option named `a` (scope field 1 = root). -/
def c9a : COption :=
  { short_arg := '\x00', long_arg := "a",
    params := storeU16 (ccli_params ccli_boolean true false 1),
    data := CData.boolData false, desc := "", arg_desc := none }

/-- A required root-scoped boolean option named `b`. -/
def c9b : COption := { c9a with long_arg := "b" }

/-! ## Claim theorems -/

/-- C1, counterexample. The claim says a single positional-shaped token is
assigned to EXACTLY ONE descriptor (the first unmatched in-scope positional)
and that every later positional descriptor stays unmatched until another
positional token arrives. On the table [alpha, beta] (two unmatched global
positional string descriptors) and the single positional token `x`, the
engine marks BOTH descriptors matched and stores `x` into both, because the
option sweep has no break after an assignment. -/
theorem c1_counterexample :
    ccli_parse_opts [] [c1optA, c1optB] ["prog", "x"] =
      ParseResult.ok [ccli_option_set_matched { c1optA with data := CData.strData "x" },
        ccli_option_set_matched { c1optB with data := CData.strData "x" }] none ∧
    ccli_option_is_matched (ccli_option_set_matched { c1optB with data := CData.strData "x" }) =
      true := by
  constructor
  · decide
  · decide

/-- C2, evaluation at the failing input. With one global required positional
string descriptor `file` and the arguments `prog -- value`, the claim says
the remaining-positionals pass assigns `value` to `file` and parse returns
normally. The code instead skips every token that is not the literal `-`
(the skip condition compares `ccli_streq(arg, "-")` against 0), leaves
`file` unmatched, and dies with the missing-required error. -/
theorem c2_sentinel_bug :
    ccli_parse_opts [] [c2opt] ["prog", "--", "value"] =
      ParseResult.fatal (CErr.missingRequired "file") ∧
    ccli_parse_opts [] [c2opt] ["prog", "--", "a", "b"] =
      ParseResult.fatal (CErr.tooManyPositionals 1 2) := by
  constructor
  · decide
  · decide

/-- C3, evaluation at the claim's inputs. The signed parser matches every
bullet of the claim, but the unsigned parser ACCEPTS the 64-bit overflow
literal: its decimal pass calls the signed `strtoll`, which saturates to
`INT64_MAX`, a value the subsequent `UINT64_MAX` comparison never detects,
so `99999999999999999999` parses to 9223372036854775807 instead of
failing. -/
theorem c3_numeric_eval :
    ccli_try_parse_int "42" = some 42 ∧
    ccli_try_parse_uint "42" = some 42 ∧
    ccli_try_parse_int "0x2A" = some 42 ∧
    ccli_try_parse_uint "0x2A" = some 42 ∧
    ccli_try_parse_int "0b101010" = some 42 ∧
    ccli_try_parse_uint "0b101010" = some 42 ∧
    ccli_try_parse_int "abc" = none ∧
    ccli_try_parse_uint "abc" = none ∧
    ccli_try_parse_int "99999999999999999999" = none ∧
    ccli_try_parse_uint "99999999999999999999" = some 9223372036854775807 := by
  refine ⟨by decide, by decide, by decide, by decide, by decide, by decide, by decide,
    by decide, by decide, by decide⟩

/-- C4, counterexample. The claim's exception covers every numeric-typed
descriptor: when a following token exists, the engine should first attempt a
numeric parse and consume the token on success. For the UNSIGNED option
`num` and the arguments `prog --num -1`, the token `-1` does parse as an
unsigned number (second conjunct), so the claim predicts success; the code
instead fails immediately with the invalid-unsigned error, attempting no
parse. -/
theorem c4_counterexample :
    ccli_parse_opts [] [c4unum] ["prog", "--num", "-1"] =
      ParseResult.fatal (CErr.invalidUnsigned "num" "-1") ∧
    ccli_try_parse_uint "-1" = some 18446744073709551615 := by
  constructor
  · decide
  · decide

/-- C5, counterexample. For the string option `name` and the value `-v`
(option-shaped), the equals form `--name=-v` succeeds and stores `-v`, while
the two-token form `--name -v` dies with a missing-argument error, so the
two forms do not reach the same success/failure outcome for every value
string. -/
theorem c5_counterexample :
    ccli_parse_opts [] [c5str] ["prog", "--name=-v"] =
      ParseResult.ok [ccli_option_set_matched { c5str with data := CData.strData "-v" }] none ∧
    ccli_parse_opts [] [c5str] ["prog", "--name", "-v"] =
      ParseResult.fatal (CErr.missingArgument "name") := by
  constructor
  · decide
  · decide

/-- C9, counterexample. The options `a` and `b` are ROOT-scoped (scope field
1), required and unmatched; the active command index is 2 (the first
subcommand). Neither option is scoped to a subcommand other than the active
one — root is not a subcommand — so by the claim the pair is not skipped and
the neither-matched-and-both-required error must fire. The code's relevance
test, however, skips any non-global option whose command field differs from
the active index, so the pair is silently dropped and no error is raised. -/
theorem c9_counterexample :
    _cli_check_mutual_exclusions 2 [c9a, c9b]
      [{ one := "a", other := some "b", satisfied := false }] = none ∧
    ccli_option_is_required c9a = true ∧
    ccli_option_is_required c9b = true ∧
    ccli_option_is_matched c9a = false ∧
    ccli_option_is_matched c9b = false ∧
    ccli_option_is_global c9a = false ∧
    ccli_option_subcmd c9a = 1 ∧
    ccli_option_subcmd c9b = 1 := by
  refine ⟨by decide, by decide, by decide, by decide, by decide, by decide, by decide, by decide⟩

/-- C10. The unsigned parser accepts the decimal literal `-5`: the signed
`strtoll` returns -5 and the assignment to the `uint64_t` destination
reinterprets it in two's complement, so the stored value is 2^64 - 5. -/
theorem c10_uint_negative :
    ccli_try_parse_uint "-5" = some 18446744073709551611 ∧
    (18446744073709551611 : Nat) = 18446744073709551616 - 5 := by
  constructor
  · decide
  · decide

/-! ## Helper lemmas about the engine -/

theorem ccli__finish_err (cmd : Nat) (sub : Option String) (e : CErr) :
    ccli__finish cmd sub (Except.error e) = ParseResult.fatal e := rfl

theorem ccli__finish_ok_none (cmd : Nat) (sub : Option String) (o : List COption)
    (h : ccli__check_unmatched cmd o = none) :
    ccli__finish cmd sub (Except.ok o) = ParseResult.ok o sub := by
  rw [ccli__finish, h]

theorem ccli__finish_ne_help (cmd : Nat) (sub : Option String)
    (res : Except CErr (List COption)) (opts : List COption) :
    ccli__finish cmd sub res ≠ ParseResult.help opts := by
  cases res with
  | error e => simp [ccli__finish]
  | ok o =>
    rw [ccli__finish]
    cases ccli__check_unmatched cmd o <;> simp

theorem ccli__run_command_nil (args : List String) : ccli__run_command [] args = 1 := by
  rw [ccli__run_command]
  split <;> rfl

theorem ccli__parse_loop_done (subs : List CCommand) (sub : Option String) (cmd : Nat)
    (args : List String) (fuel idx : Nat) (opts : List COption) (h : args.length ≤ idx) :
    ccli__parse_loop subs sub cmd args fuel idx opts = Except.ok opts := by
  cases fuel with
  | zero => rw [ccli__parse_loop]
  | succ n => rw [ccli__parse_loop, if_neg (by omega)]

theorem ccli__parse_loop_step_equals (subs : List CCommand) (sub : Option String) (cmd : Nat)
    (args : List String) (fuel idx : Nat) (opts opts2 : List COption)
    (hlt : idx < args.length)
    (hs : (ccli_streq (args.getD idx "") "--" || ccli_streq (args.getD idx "") "-") = false)
    (hc : ccli_strcontains (args.getD idx "") '=' = true)
    (hp : ccli__parse_equals opts (args.getD idx "") cmd = Except.ok opts2) :
    ccli__parse_loop subs sub cmd args (fuel + 1) idx opts =
      ccli__parse_loop subs sub cmd args fuel (idx + 1) opts2 := by
  rw [ccli__parse_loop, if_pos hlt]
  simp only [hs, hc, hp, Bool.false_eq_true, if_false, if_true]

theorem ccli__parse_loop_step_equals_err (subs : List CCommand) (sub : Option String) (cmd : Nat)
    (args : List String) (fuel idx : Nat) (opts : List COption) (e : CErr)
    (hlt : idx < args.length)
    (hs : (ccli_streq (args.getD idx "") "--" || ccli_streq (args.getD idx "") "-") = false)
    (hc : ccli_strcontains (args.getD idx "") '=' = true)
    (hp : ccli__parse_equals opts (args.getD idx "") cmd = Except.error e) :
    ccli__parse_loop subs sub cmd args (fuel + 1) idx opts = Except.error e := by
  rw [ccli__parse_loop, if_pos hlt]
  simp only [hs, hc, hp, Bool.false_eq_true, if_false, if_true]

theorem ccli__parse_loop_step_inner (subs : List CCommand) (sub : Option String) (cmd : Nat)
    (args : List String) (fuel idx idx2 : Nat) (opts opts2 : List COption)
    (hlt : idx < args.length)
    (hs : (ccli_streq (args.getD idx "") "--" || ccli_streq (args.getD idx "") "-") = false)
    (hc : ccli_strcontains (args.getD idx "") '=' = false)
    (hi : ccli__parse_opts_inner args cmd (args.getD idx "")
        (ccli__is_long_opt (args.getD idx "")) (ccli__short_opt_kind (args.getD idx ""))
        (!(ccli__is_long_opt (args.getD idx "")) &&
          ccli__short_opt_kind (args.getD idx "") == ShortOptKind.short_none)
        opts.length 0 opts idx false = Except.ok (opts2, idx2, true)) :
    ccli__parse_loop subs sub cmd args (fuel + 1) idx opts =
      ccli__parse_loop subs sub cmd args fuel (idx2 + 1) opts2 := by
  rw [ccli__parse_loop, if_pos hlt]
  simp only [hs, hc, hi, Bool.false_eq_true, if_false, if_true]

theorem ccli__parse_loop_step_inner_err (subs : List CCommand) (sub : Option String) (cmd : Nat)
    (args : List String) (fuel idx : Nat) (opts : List COption) (e : CErr)
    (hlt : idx < args.length)
    (hs : (ccli_streq (args.getD idx "") "--" || ccli_streq (args.getD idx "") "-") = false)
    (hc : ccli_strcontains (args.getD idx "") '=' = false)
    (hi : ccli__parse_opts_inner args cmd (args.getD idx "")
        (ccli__is_long_opt (args.getD idx "")) (ccli__short_opt_kind (args.getD idx ""))
        (!(ccli__is_long_opt (args.getD idx "")) &&
          ccli__short_opt_kind (args.getD idx "") == ShortOptKind.short_none)
        opts.length 0 opts idx false = Except.error e) :
    ccli__parse_loop subs sub cmd args (fuel + 1) idx opts = Except.error e := by
  rw [ccli__parse_loop, if_pos hlt]
  simp only [hs, hc, hi, Bool.false_eq_true, if_false, if_true]

theorem ccli_parse_opts_eval2 (opts : List COption) (t : String)
    (r : Except CErr (List COption))
    (hval : ccli__validate_options opts = none)
    (hfh : ccli__find_help ["prog", t] = false)
    (hloop : ccli__parse_loop [] none 1 ["prog", t] 2 1 opts = r) :
    ccli_parse_opts [] opts ["prog", t] = ccli__finish 1 none r := by
  rw [ccli_parse_opts]
  simp only [hval, ccli__run_command_nil, hfh, Bool.false_eq_true, if_false,
    List.length_cons, List.length_nil, Nat.lt_irrefl]
  rw [if_neg (by decide)]
  rw [show ccli__parse_loop [] none 1 ["prog", t] (0 + 1 + 1) 1 opts = r from hloop]

theorem ccli_parse_opts_eval3 (opts : List COption) (t1 t2 : String)
    (r : Except CErr (List COption))
    (hval : ccli__validate_options opts = none)
    (hfh : ccli__find_help ["prog", t1, t2] = false)
    (hloop : ccli__parse_loop [] none 1 ["prog", t1, t2] 3 1 opts = r) :
    ccli_parse_opts [] opts ["prog", t1, t2] = ccli__finish 1 none r := by
  rw [ccli_parse_opts]
  simp only [hval, ccli__run_command_nil, hfh, Bool.false_eq_true, if_false,
    List.length_cons, List.length_nil, Nat.lt_irrefl]
  rw [if_neg (by decide)]
  rw [show ccli__parse_loop [] none 1 ["prog", t1, t2] (0 + 1 + 1 + 1) 1 opts = r from hloop]

theorem inner_positional_spec (args : List String) (cmd_idx : Nat) (arg : String) :
    ∀ (fuel s : Nat) (options : List COption) (aidx : Nat) (m : Bool)
      (options2 : List COption) (aidx2 : Nat) (m2 : Bool),
      ccli__parse_opts_inner args cmd_idx arg false ShortOptKind.short_none true
          fuel s options aidx m = Except.ok (options2, aidx2, m2) →
      aidx2 = aidx ∧ options2.length = options.length ∧
      ∀ i (hi : i < options.length) (hi2 : i < options2.length),
        options2[i] = if s ≤ i ∧ i < s + fuel then positionalSweepStep cmd_idx arg options[i]
          else options[i] := by
  intro fuel
  induction fuel with
  | zero =>
    intro s options aidx m options2 aidx2 m2 h
    simp only [ccli__parse_opts_inner, Except.ok.injEq, Prod.mk.injEq] at h
    obtain ⟨rfl, rfl, rfl⟩ := h
    refine ⟨rfl, rfl, ?_⟩
    intro i hi hi2
    have hno : ¬(s ≤ i ∧ i < s + 0) := by omega
    rw [if_neg hno]
  | succ fuel ih =>
    intro s options aidx m options2 aidx2 m2 h
    simp only [ccli__parse_opts_inner] at h
    by_cases hlt : s < options.length
    · rw [dif_pos hlt] at h
      have e1 : (ShortOptKind.short_none == ShortOptKind.short_single) = false := rfl
      have e2 : (ShortOptKind.short_none == ShortOptKind.short_multiple) = false := rfl
      simp only [e1, e2, Bool.false_and, Bool.false_or, Bool.and_false, Bool.not_false,
        Bool.true_and, Bool.and_true, if_false, Bool.false_eq_true] at h
      cases hc1 : (!ccli_option_is_global options[s] && !(ccli_option_subcmd options[s] == cmd_idx)) with
      | true =>
        rw [hc1] at h
        simp only [if_true] at h
        obtain ⟨ha, hl, hp⟩ := ih (s + 1) options aidx m options2 aidx2 m2 h
        refine ⟨ha, hl, ?_⟩
        intro i hi hi2
        have hstep := hp i hi hi2
        by_cases his : i = s
        · subst his
          have hsc : (ccli_option_is_global options[i] || ccli_option_subcmd options[i] == cmd_idx) = false := by
            cases hg : ccli_option_is_global options[i] <;>
              cases hs2 : (ccli_option_subcmd options[i] == cmd_idx) <;>
              simp [hg, hs2] at hc1 ⊢
          have hrange : i ≤ i ∧ i < i + (fuel + 1) := by omega
          rw [if_pos hrange]
          have hno : ¬(i + 1 ≤ i ∧ i < i + 1 + fuel) := by omega
          rw [if_neg hno] at hstep
          rw [hstep, positionalSweepStep, hsc]
          simp
        · rw [hstep]
          by_cases hr : s ≤ i ∧ i < s + (fuel + 1)
          · rw [if_pos hr, if_pos (by omega)]
          · rw [if_neg hr, if_neg (by omega)]
      | false =>
        rw [hc1] at h
        simp only [Bool.false_eq_true, if_false] at h
        cases hc2 : (ccli_option_is_positional options[s] && !ccli_option_is_matched options[s]) with
        | true =>
          rw [hc2] at h
          simp only [if_true] at h
          rcases hst : ccli__store_positional options[s] arg with e | d
          · rw [hst] at h
            cases h
          · rw [hst] at h
            obtain ⟨ha, hl, hp⟩ := ih (s + 1) _ aidx true options2 aidx2 m2 h
            rw [List.length_set] at hl
            refine ⟨ha, hl, ?_⟩
            intro i hi hi2
            have hi3 : i < (options.set s (ccli_option_set_matched { options[s] with data := d })).length := by
              rw [List.length_set]; exact hi
            have hstep := hp i hi3 hi2
            by_cases his : i = s
            · subst his
              have hsc : (ccli_option_is_global options[i] || ccli_option_subcmd options[i] == cmd_idx) = true := by
                cases hg : ccli_option_is_global options[i] <;>
                  cases hs2 : (ccli_option_subcmd options[i] == cmd_idx) <;>
                  simp [hg, hs2] at hc1 ⊢
              have hrange : i ≤ i ∧ i < i + (fuel + 1) := by omega
              rw [if_pos hrange]
              have hno : ¬(i + 1 ≤ i ∧ i < i + 1 + fuel) := by omega
              rw [if_neg hno] at hstep
              rw [hstep, List.getElem_set_self, positionalSweepStep]
              have hcond : ((ccli_option_is_global options[i] || ccli_option_subcmd options[i] == cmd_idx) &&
                  ccli_option_is_positional options[i] && !ccli_option_is_matched options[i]) = true := by
                rcases Bool.and_eq_true_iff.mp hc2 with ⟨hpos, hmat⟩
                rw [hsc, hpos, hmat]
                rfl
              rw [if_pos hcond, hst]
            · have hset : (options.set s (ccli_option_set_matched { options[s] with data := d }))[i] = options[i] :=
                List.getElem_set_ne (fun hq => his hq.symm) hi3
              rw [hset] at hstep
              rw [hstep]
              by_cases hr : s ≤ i ∧ i < s + (fuel + 1)
              · rw [if_pos (by omega), if_pos (by omega)]
              · rw [if_neg (by omega), if_neg (by omega)]
        | false =>
          rw [hc2] at h
          simp only [Bool.false_eq_true, if_false] at h
          obtain ⟨ha, hl, hp⟩ := ih (s + 1) options aidx m options2 aidx2 m2 h
          refine ⟨ha, hl, ?_⟩
          intro i hi hi2
          have hstep := hp i hi hi2
          by_cases his : i = s
          · subst his
            have hrange : i ≤ i ∧ i < i + (fuel + 1) := by omega
            rw [if_pos hrange]
            have hno : ¬(i + 1 ≤ i ∧ i < i + 1 + fuel) := by omega
            rw [if_neg hno] at hstep
            rw [hstep, positionalSweepStep]
            have hcond : ((ccli_option_is_global options[i] || ccli_option_subcmd options[i] == cmd_idx) &&
                ccli_option_is_positional options[i] && !ccli_option_is_matched options[i]) = false := by
              cases hpos : ccli_option_is_positional options[i] <;>
                cases hmat : ccli_option_is_matched options[i] <;>
                simp [hpos, hmat] at hc2 ⊢
            rw [if_neg (by rw [hcond]; exact Bool.false_ne_true)]
          · rw [hstep]
            by_cases hr : s ≤ i ∧ i < s + (fuel + 1)
            · rw [if_pos (by omega), if_pos (by omega)]
            · rw [if_neg (by omega), if_neg (by omega)]
    · rw [dif_neg hlt] at h
      simp only [Except.ok.injEq, Prod.mk.injEq] at h
      obtain ⟨rfl, rfl, rfl⟩ := h
      refine ⟨rfl, rfl, ?_⟩
      intro i hi hi2
      have hno : ¬(s ≤ i ∧ i < s + (fuel + 1)) := by omega
      rw [if_neg hno]

theorem ccli__find_help_go_iff (l : List String) :
    ccli__find_help_go l = true ↔
      ∃ i, ∃ h : i < l.length, (l.get ⟨i, h⟩ = "--help" ∨ l.get ⟨i, h⟩ = "-h") ∧
        ∀ j, ∀ hj : j < l.length, j < i → l.get ⟨j, hj⟩ ≠ "--" ∧ l.get ⟨j, hj⟩ ≠ "-" := by
  induction l with
  | nil => simp [ccli__find_help_go]
  | cons a rest ih =>
    unfold ccli__find_help_go
    by_cases hsent : a = "--" ∨ a = "-"
    · have hc : (ccli_streq a "--" || ccli_streq a "-") = true := by
        rcases hsent with h | h <;> simp [ccli_streq, h]
      rw [if_pos hc]
      constructor
      · intro hfalse; cases hfalse
      · rintro ⟨i, hi, hhelp, hbefore⟩
        cases i with
        | zero =>
          simp only [List.get] at hhelp
          rcases hsent with h2 | h2 <;> subst h2 <;> rcases hhelp with h | h <;>
            exact absurd h (by decide)
        | succ k =>
          have := hbefore 0 (by simp) (Nat.succ_pos k)
          simp only [List.get] at this
          rcases hsent with h2 | h2
          · exact absurd h2 this.1
          · exact absurd h2 this.2
    · have hcF : (ccli_streq a "--" || ccli_streq a "-") = false := by
        push_neg at hsent
        simp [ccli_streq, hsent.1, hsent.2]
      rw [hcF]
      simp only [Bool.false_eq_true, if_false]
      by_cases hhelp : a = "--help" ∨ a = "-h"
      · have hh : (ccli_streq a "--help" || ccli_streq a "-h") = true := by
          rcases hhelp with h | h <;> simp [ccli_streq, h]
        rw [if_pos hh]
        simp only [true_iff]
        refine ⟨0, by simp, ?_, ?_⟩
        · simpa using hhelp
        · intro j hj hj0; cases hj0
      · have hhF : (ccli_streq a "--help" || ccli_streq a "-h") = false := by
          push_neg at hhelp
          simp [ccli_streq, hhelp.1, hhelp.2]
        rw [hhF]
        simp only [Bool.false_eq_true, if_false]
        rw [ih]
        constructor
        · rintro ⟨i, hi, hh, hb⟩
          refine ⟨i + 1, by simpa using hi, by simpa using hh, ?_⟩
          intro j hj hji
          cases j with
          | zero =>
            push_neg at hsent
            simpa using hsent
          | succ k =>
            have := hb k (by simpa using hj) (by omega)
            simpa using this
        · rintro ⟨i, hi, hh, hb⟩
          cases i with
          | zero =>
            push_neg at hhelp
            rcases hh with h | h <;> simp only [List.get] at h
            · exact absurd h hhelp.1
            · exact absurd h hhelp.2
          | succ k =>
            refine ⟨k, by simpa using hi, by simpa using hh, ?_⟩
            intro j hj hji
            have := hb (j + 1) (by simpa using hj) (by omega)
            simpa using this

/-! ## Claim theorems (with hypotheses) and their witnesses -/

/-- C1 (amended): when the inner option scan is entered for a token that is
neither a long nor a short option, it leaves the token cursor unchanged and
maps every descriptor through one positional sweep step: every in-scope,
unmatched positional descriptor receives the token and is marked matched
(the loop lacks a break, so it does not stop at the first one). -/
theorem c1_amended_theorem (args : List String) (cmd_idx : Nat) (arg : String)
    (options options2 : List COption) (aidx aidx2 : Nat) (m2 : Bool)
    (h : ccli__parse_opts_inner args cmd_idx arg false ShortOptKind.short_none true
        options.length 0 options aidx false = Except.ok (options2, aidx2, m2)) :
    aidx2 = aidx ∧ options2 = options.map (positionalSweepStep cmd_idx arg) := by
  obtain ⟨ha, hl, hp⟩ := inner_positional_spec args cmd_idx arg options.length 0 options aidx
    false options2 aidx2 m2 h
  refine ⟨ha, ?_⟩
  apply List.ext_getElem
  · rw [hl, List.length_map]
  · intro i hi2 him
    rw [List.getElem_map]
    have hi : i < options.length := hl ▸ hi2
    have hx := hp i hi hi2
    rw [hx, if_pos ⟨Nat.zero_le i, by omega⟩]

/-- Witness for C1: sweeping token "x" over two global optional positional
string descriptors assigns "x" to both and marks both matched. -/
theorem c1_amended_witness :
    (ccli__parse_opts_inner ["prog", "x"] 1 "x" false ShortOptKind.short_none true
        ([c1optA, c1optB].length) 0 [c1optA, c1optB] 1 false =
      Except.ok ([ccli_option_set_matched { c1optA with data := CData.strData "x" },
        ccli_option_set_matched { c1optB with data := CData.strData "x" }], 1, true)) ∧
    ((1 : Nat) = 1 ∧
      [ccli_option_set_matched { c1optA with data := CData.strData "x" },
       ccli_option_set_matched { c1optB with data := CData.strData "x" }] =
        [c1optA, c1optB].map (positionalSweepStep 1 "x")) :=
  ⟨rfl,
    c1_amended_theorem ["prog", "x"] 1 "x" [c1optA, c1optB]
      [ccli_option_set_matched { c1optA with data := CData.strData "x" },
       ccli_option_set_matched { c1optB with data := CData.strData "x" }] 1 1 true rfl⟩

/-- C4 (amended): when the following token is absent, a matched non-boolean
named option of any kind fails with a missing-argument error (first three
conjuncts, absent-token case). When an option-shaped following token exists,
the negative-number exception applies only to signed-number descriptors (the
parse is attempted and its outcome decides); an unsigned-number descriptor
rejects the token with an invalid-unsigned-value error without attempting
the parse, and other kinds report a missing value. -/
theorem c4_amended_theorem (t : String) (hopt : ccli__is_option t = true) :
    (ccli_parse_opts [] [c4num] ["prog", "--inum"] =
      ParseResult.fatal (CErr.missingArgument "inum")) ∧
    (ccli_parse_opts [] [c4unum] ["prog", "--num"] =
      ParseResult.fatal (CErr.missingArgument "num")) ∧
    (ccli_parse_opts [] [c4str] ["prog", "--str"] =
      ParseResult.fatal (CErr.missingArgument "str")) ∧
    (ccli__parse_opts_inner ["prog", "--inum", t] 1 "--inum" true ShortOptKind.short_multiple false
        ([c4num].length) 0 [c4num] 1 false =
      match ccli_try_parse_int t with
      | some v =>
        Except.ok ([ccli_option_set_matched { c4num with data := CData.numData v }], 2, true)
      | none => Except.error (CErr.missingArgument "inum")) ∧
    (ccli__parse_opts_inner ["prog", "--num", t] 1 "--num" true ShortOptKind.short_multiple false
        ([c4unum].length) 0 [c4unum] 1 false = Except.error (CErr.invalidUnsigned "num" t)) ∧
    (ccli__parse_opts_inner ["prog", "--str", t] 1 "--str" true ShortOptKind.short_multiple false
        ([c4str].length) 0 [c4str] 1 false = Except.error (CErr.missingArgument "str")) := by
  have e1 : (ShortOptKind.short_multiple == ShortOptKind.short_single) = false := rfl
  refine ⟨by decide, by decide, by decide, ?_, ?_, ?_⟩
  · show ccli__parse_opts_inner ["prog", "--inum", t] 1 "--inum" true ShortOptKind.short_multiple
        false (0 + 1) 0 [c4num] 1 false = _
    have h1 : ccli_option_is_global c4num = true := by decide
    have h2 : ccli__long_opt_eq "--inum" c4num.long_arg = true := by decide
    have h3 : (ccli_option_type c4num == ccli_boolean) = false := by decide
    have h4 : (ccli_option_type c4num == ccli_number) = true := by decide
    have h6 : c4num.long_arg = "inum" := by decide
    have h2b : ccli__long_opt_eq "--inum" "inum" = true := by decide
    rcases hpt : ccli_try_parse_int t with _ | v
    · simp only [ccli__parse_opts_inner]
      simp [h1, h2, h2b, h3, h4, h6, e1, hopt, hpt, List.getD]
    · simp only [ccli__parse_opts_inner]
      simp [h1, h2, h2b, h3, h4, h6, e1, hopt, hpt, List.getD]
  · show ccli__parse_opts_inner ["prog", "--num", t] 1 "--num" true ShortOptKind.short_multiple
        false (0 + 1) 0 [c4unum] 1 false = _
    have h1 : ccli_option_is_global c4unum = true := by decide
    have h2 : ccli__long_opt_eq "--num" c4unum.long_arg = true := by decide
    have h3 : (ccli_option_type c4unum == ccli_boolean) = false := by decide
    have h4 : (ccli_option_type c4unum == ccli_number) = false := by decide
    have h5 : (ccli_option_type c4unum == ccli_unumber) = true := by decide
    have h6 : c4unum.long_arg = "num" := by decide
    have h2b : ccli__long_opt_eq "--num" "num" = true := by decide
    simp only [ccli__parse_opts_inner]
    simp [h1, h2, h2b, h3, h4, h5, h6, e1, hopt, List.getD]
  · show ccli__parse_opts_inner ["prog", "--str", t] 1 "--str" true ShortOptKind.short_multiple
        false (0 + 1) 0 [c4str] 1 false = _
    have h1 : ccli_option_is_global c4str = true := by decide
    have h2 : ccli__long_opt_eq "--str" c4str.long_arg = true := by decide
    have h3 : (ccli_option_type c4str == ccli_boolean) = false := by decide
    have h4 : (ccli_option_type c4str == ccli_number) = false := by decide
    have h5 : (ccli_option_type c4str == ccli_unumber) = false := by decide
    have h6 : c4str.long_arg = "str" := by decide
    have h2b : ccli__long_opt_eq "--str" "str" = true := by decide
    simp only [ccli__parse_opts_inner]
    simp [h1, h2, h2b, h3, h4, h5, h6, e1, hopt, List.getD]

/-- Witness for C4: each kind fails with a missing-argument error when the
option is the last token; with next token "-x" (option-shaped, not a number)
the signed descriptor fails with an invalid-value error after an attempted
parse, the unsigned descriptor with its no-parse error, the string one with
a missing-value error. -/
theorem c4_amended_witness :
    ccli__is_option "-x" = true ∧
    ((ccli_parse_opts [] [c4num] ["prog", "--inum"] =
      ParseResult.fatal (CErr.missingArgument "inum")) ∧
    (ccli_parse_opts [] [c4unum] ["prog", "--num"] =
      ParseResult.fatal (CErr.missingArgument "num")) ∧
    (ccli_parse_opts [] [c4str] ["prog", "--str"] =
      ParseResult.fatal (CErr.missingArgument "str")) ∧
    (ccli__parse_opts_inner ["prog", "--inum", "-x"] 1 "--inum" true ShortOptKind.short_multiple
        false ([c4num].length) 0 [c4num] 1 false =
      match ccli_try_parse_int "-x" with
      | some v =>
        Except.ok ([ccli_option_set_matched { c4num with data := CData.numData v }], 2, true)
      | none => Except.error (CErr.missingArgument "inum")) ∧
    (ccli__parse_opts_inner ["prog", "--num", "-x"] 1 "--num" true ShortOptKind.short_multiple
        false ([c4unum].length) 0 [c4unum] 1 false =
      Except.error (CErr.invalidUnsigned "num" "-x")) ∧
    (ccli__parse_opts_inner ["prog", "--str", "-x"] 1 "--str" true ShortOptKind.short_multiple
        false ([c4str].length) 0 [c4str] 1 false =
      Except.error (CErr.missingArgument "str"))) :=
  ⟨by decide, c4_amended_theorem "-x" (by decide)⟩

set_option maxRecDepth 40000 in
/-- C6 (confirmed): packing kind/required/positional/scope with ccli_params,
truncating to the uint16_t params field, and reading back through the
accessor macros recovers each field, with the matched bit cleared, for every
descriptor kind and every scope index below 256. -/
theorem c6_pack_unpack (typ : Nat) (req pos : Bool) (cmd : Nat)
    (htyp : typ = 1 ∨ typ = 2 ∨ typ = 4 ∨ typ = 8) (hcmd : cmd < 256) :
    ccli_option_type (mkParamsOpt (storeU16 (ccli_params typ req pos cmd))) = typ ∧
    ccli_option_is_required (mkParamsOpt (storeU16 (ccli_params typ req pos cmd))) = req ∧
    ccli_option_is_positional (mkParamsOpt (storeU16 (ccli_params typ req pos cmd))) = pos ∧
    ccli_option_subcmd (mkParamsOpt (storeU16 (ccli_params typ req pos cmd))) = cmd ∧
    ccli_option_is_matched (mkParamsOpt (storeU16 (ccli_params typ req pos cmd))) = false := by
  rcases htyp with h | h | h | h <;> subst h
  · have key : ∀ (c : Fin 256) (r p : Bool),
        ccli_option_type (mkParamsOpt (storeU16 (ccli_params 1 r p c.val))) = 1 ∧
        ccli_option_is_required (mkParamsOpt (storeU16 (ccli_params 1 r p c.val))) = r ∧
        ccli_option_is_positional (mkParamsOpt (storeU16 (ccli_params 1 r p c.val))) = p ∧
        ccli_option_subcmd (mkParamsOpt (storeU16 (ccli_params 1 r p c.val))) = c.val ∧
        ccli_option_is_matched (mkParamsOpt (storeU16 (ccli_params 1 r p c.val))) = false := by
      decide
    exact key ⟨cmd, hcmd⟩ req pos
  · have key : ∀ (c : Fin 256) (r p : Bool),
        ccli_option_type (mkParamsOpt (storeU16 (ccli_params 2 r p c.val))) = 2 ∧
        ccli_option_is_required (mkParamsOpt (storeU16 (ccli_params 2 r p c.val))) = r ∧
        ccli_option_is_positional (mkParamsOpt (storeU16 (ccli_params 2 r p c.val))) = p ∧
        ccli_option_subcmd (mkParamsOpt (storeU16 (ccli_params 2 r p c.val))) = c.val ∧
        ccli_option_is_matched (mkParamsOpt (storeU16 (ccli_params 2 r p c.val))) = false := by
      decide
    exact key ⟨cmd, hcmd⟩ req pos
  · have key : ∀ (c : Fin 256) (r p : Bool),
        ccli_option_type (mkParamsOpt (storeU16 (ccli_params 4 r p c.val))) = 4 ∧
        ccli_option_is_required (mkParamsOpt (storeU16 (ccli_params 4 r p c.val))) = r ∧
        ccli_option_is_positional (mkParamsOpt (storeU16 (ccli_params 4 r p c.val))) = p ∧
        ccli_option_subcmd (mkParamsOpt (storeU16 (ccli_params 4 r p c.val))) = c.val ∧
        ccli_option_is_matched (mkParamsOpt (storeU16 (ccli_params 4 r p c.val))) = false := by
      decide
    exact key ⟨cmd, hcmd⟩ req pos
  · have key : ∀ (c : Fin 256) (r p : Bool),
        ccli_option_type (mkParamsOpt (storeU16 (ccli_params 8 r p c.val))) = 8 ∧
        ccli_option_is_required (mkParamsOpt (storeU16 (ccli_params 8 r p c.val))) = r ∧
        ccli_option_is_positional (mkParamsOpt (storeU16 (ccli_params 8 r p c.val))) = p ∧
        ccli_option_subcmd (mkParamsOpt (storeU16 (ccli_params 8 r p c.val))) = c.val ∧
        ccli_option_is_matched (mkParamsOpt (storeU16 (ccli_params 8 r p c.val))) = false := by
      decide
    exact key ⟨cmd, hcmd⟩ req pos

/-- Witness for C6: a required non-positional number descriptor scoped to
command index 7 round-trips through the packed params field. -/
theorem c6_pack_unpack_witness :
    ((4 : Nat) = 1 ∨ (4 : Nat) = 2 ∨ (4 : Nat) = 4 ∨ (4 : Nat) = 8) ∧ (7 : Nat) < 256 ∧
    (ccli_option_type (mkParamsOpt (storeU16 (ccli_params 4 true false 7))) = 4 ∧
     ccli_option_is_required (mkParamsOpt (storeU16 (ccli_params 4 true false 7))) = true ∧
     ccli_option_is_positional (mkParamsOpt (storeU16 (ccli_params 4 true false 7))) = false ∧
     ccli_option_subcmd (mkParamsOpt (storeU16 (ccli_params 4 true false 7))) = 7 ∧
     ccli_option_is_matched (mkParamsOpt (storeU16 (ccli_params 4 true false 7))) = false) :=
  ⟨by decide, by decide, c6_pack_unpack 4 true false 7 (by decide) (by decide)⟩

/-- C8 (confirmed): cli.h's required-option check reports the first in-scope
descriptor that is unmatched and required and whose long name appears in no
mutual-exclusion pair; descriptors exempted by an exclusion pair are skipped. -/
theorem c8_check_unmatched (cmd_idx : Nat) (mutual_exclusions : List CExclusion)
    (options : List COption) :
    _cli_check_unmatched cmd_idx mutual_exclusions options =
      (options.find? (fun opt =>
        (ccli_option_is_global opt || ccli_option_subcmd opt == cmd_idx) &&
        (!(ccli_option_is_matched opt) && ccli_option_is_required opt) &&
        !(_cli_exclusion_exempts mutual_exclusions opt.long_arg))).map
        (fun opt => CErr.missingRequired opt.long_arg) := by
  induction options with
  | nil => rfl
  | cons opt rest ih =>
    simp only [_cli_check_unmatched, List.find?_cons]
    cases hg : ccli_option_is_global opt <;>
    cases hs : ccli_option_subcmd opt == cmd_idx <;>
    cases hm : ccli_option_is_matched opt <;>
    cases hr : ccli_option_is_required opt <;>
    cases he : _cli_exclusion_exempts mutual_exclusions opt.long_arg <;>
    simp [hg, hs, hm, hr, he, ih]

/-- C9 (amended): for a two-option table and one well-formed exclusion pair
naming both options, cli.h's mutual-exclusion check reports both-missing when
both are unmatched and required, both-given when both are matched, and is
skipped entirely when either option is non-global with a scope different from
the active command index (root-scoped options under a subcommand included);
a pair with a null second name panics, as does one with an empty first name. -/
theorem c9_amended_theorem (cmd_idx : Nat) (oa ob : COption) (one other : String)
    (h1 : one ≠ "") (h2 : other ≠ "") (hne : one ≠ other)
    (ha : oa.long_arg = one) (hb : ob.long_arg = other) :
    (_cli_check_mutual_exclusions cmd_idx [oa, ob] [⟨one, some other, false⟩] =
      (if ((!(ccli_option_is_global oa) && !(ccli_option_subcmd oa == cmd_idx)) ||
           (!(ccli_option_is_global ob) && !(ccli_option_subcmd ob == cmd_idx))) = true then none
       else if (!(ccli_option_is_matched oa) && !(ccli_option_is_matched ob) &&
           ccli_option_is_required oa && ccli_option_is_required ob) = true then
         some (CErr.exclusionBothMissing one other)
       else if (ccli_option_is_matched oa && ccli_option_is_matched ob) = true then
         some (CErr.exclusionBothGiven one other)
       else none)) ∧
    (∀ rest : List CExclusion, _cli_check_mutual_exclusions cmd_idx [oa, ob]
      (⟨one, none, false⟩ :: rest) = some CErr.panicExclusionNull) ∧
    (∀ rest : List CExclusion, _cli_check_mutual_exclusions cmd_idx [oa, ob]
      (⟨"", some other, false⟩ :: rest) = some CErr.panicExclusionEmpty) := by
  have lz : ∀ s : String, s.length = 0 → s = "" := by
    intro s h
    cases s with
    | mk data =>
      cases data with
      | nil => rfl
      | cons c rest => simp [String.length] at h
  have l1 : (one.length == 0) = false :=
    beq_eq_false_iff_ne.mpr (fun h => h1 (lz one h))
  have l2 : (other.length == 0) = false :=
    beq_eq_false_iff_ne.mpr (fun h => h2 (lz other h))
  have s1 : ccli_streq one oa.long_arg = true := by rw [ccli_streq, ha]; simp
  have s2 : ccli_streq other oa.long_arg = false := by
    rw [ccli_streq, ha]; exact beq_eq_false_iff_ne.mpr (Ne.symm hne)
  have s3 : ccli_streq one ob.long_arg = false := by
    rw [ccli_streq, hb]; exact beq_eq_false_iff_ne.mpr hne
  have s4 : ccli_streq other ob.long_arg = true := by rw [ccli_streq, hb]; simp
  have hnil : _cli_check_mutual_exclusions cmd_idx [oa, ob] [] = none := by
    rw [_cli_check_mutual_exclusions]
  refine ⟨?_, ?_, ?_⟩
  · have hhead : _cli_check_mutual_exclusions cmd_idx [oa, ob] [⟨one, some other, false⟩] =
        (match _cli_exclusion_scan cmd_idx one other false false true [oa, ob] with
          | none => none
          | some (om, otm, br) =>
            if om == false && otm == false && br then some (CErr.exclusionBothMissing one other)
            else if om && otm then some (CErr.exclusionBothGiven one other)
            else none) := by
      rw [_cli_check_mutual_exclusions]
      simp only [l1, l2, Bool.or_self, Bool.false_eq_true, if_false]
      rcases hscan : _cli_exclusion_scan cmd_idx one other false false true [oa, ob]
        with _ | ⟨om, otm, br⟩
      · exact hnil
      · show (if (om == false && otm == false && br) = true then
            some (CErr.exclusionBothMissing one other)
          else if (om && otm) = true then some (CErr.exclusionBothGiven one other)
          else _cli_check_mutual_exclusions cmd_idx [oa, ob] []) =
          (if (om == false && otm == false && br) = true then
            some (CErr.exclusionBothMissing one other)
          else if (om && otm) = true then some (CErr.exclusionBothGiven one other)
          else none)
        by_cases hm : (om == false && otm == false && br) = true
        · rw [if_pos hm, if_pos hm]
        · rw [if_neg hm, if_neg hm]
          by_cases hg : (om && otm) = true
          · rw [if_pos hg, if_pos hg]
          · rw [if_neg hg, if_neg hg]
            exact hnil
    rw [hhead]
    by_cases ca : (!(ccli_option_is_global oa) && !(ccli_option_subcmd oa == cmd_idx)) = true
    · have hscan : _cli_exclusion_scan cmd_idx one other false false true [oa, ob] = none := by
        rw [_cli_exclusion_scan, if_pos (by simp [ca, s1])]
      rw [hscan]
      have : ((!(ccli_option_is_global oa) && !(ccli_option_subcmd oa == cmd_idx)) ||
          (!(ccli_option_is_global ob) && !(ccli_option_subcmd ob == cmd_idx))) = true := by
        simp [ca]
      rw [if_pos this]
    · by_cases cb : (!(ccli_option_is_global ob) && !(ccli_option_subcmd ob == cmd_idx)) = true
      · have hscan : _cli_exclusion_scan cmd_idx one other false false true [oa, ob] = none := by
          rw [_cli_exclusion_scan, if_neg (by simp [ca, s1, s2]), if_pos s1,
            _cli_exclusion_scan, if_pos (by simp [cb, s4])]
        rw [hscan]
        have : ((!(ccli_option_is_global oa) && !(ccli_option_subcmd oa == cmd_idx)) ||
            (!(ccli_option_is_global ob) && !(ccli_option_subcmd ob == cmd_idx))) = true := by
          simp [cb]
        rw [if_pos this]
      · have hscan : _cli_exclusion_scan cmd_idx one other false false true [oa, ob] =
            some (ccli_option_is_matched oa, ccli_option_is_matched ob,
              (true && ccli_option_is_required oa) && ccli_option_is_required ob) := by
          rw [_cli_exclusion_scan, if_neg (by simp [ca, s1, s2]), if_pos s1,
            _cli_exclusion_scan, if_neg (by simp [cb, s3, s4]), if_neg (by simp [s3]),
            if_pos s4, _cli_exclusion_scan]
        rw [hscan]
        have hor : ((!(ccli_option_is_global oa) && !(ccli_option_subcmd oa == cmd_idx)) ||
            (!(ccli_option_is_global ob) && !(ccli_option_subcmd ob == cmd_idx))) = false := by
          simp only [Bool.or_eq_false_iff]
          constructor
          · exact Bool.not_eq_true _ ▸ (by simpa using ca)
          · exact Bool.not_eq_true _ ▸ (by simpa using cb)
        rw [hor]
        simp only [Bool.false_eq_true, if_false]
        cases hma : ccli_option_is_matched oa <;> cases hmb : ccli_option_is_matched ob <;>
          cases hra : ccli_option_is_required oa <;> cases hrb : ccli_option_is_required ob <;>
          simp
  · intro rest
    rw [_cli_check_mutual_exclusions]
  · intro rest
    rw [_cli_check_mutual_exclusions]
    simp [l2]

/-- Witness for C9: two required root-scoped boolean descriptors named "a" and
"b" under active command index 2 — the exclusion pair is skipped (result
`none`), and the malformed-pair panics fire. -/
theorem c9_amended_witness :
    ("a" : String) ≠ "" ∧ ("b" : String) ≠ "" ∧ ("a" : String) ≠ "b" ∧
    c9a.long_arg = "a" ∧ c9b.long_arg = "b" ∧
    ((_cli_check_mutual_exclusions 2 [c9a, c9b] [⟨"a", some "b", false⟩] =
      (if ((!(ccli_option_is_global c9a) && !(ccli_option_subcmd c9a == 2)) ||
           (!(ccli_option_is_global c9b) && !(ccli_option_subcmd c9b == 2))) = true then none
       else if (!(ccli_option_is_matched c9a) && !(ccli_option_is_matched c9b) &&
           ccli_option_is_required c9a && ccli_option_is_required c9b) = true then
         some (CErr.exclusionBothMissing "a" "b")
       else if (ccli_option_is_matched c9a && ccli_option_is_matched c9b) = true then
         some (CErr.exclusionBothGiven "a" "b")
       else none)) ∧
    (∀ rest : List CExclusion, _cli_check_mutual_exclusions 2 [c9a, c9b]
      (⟨"a", none, false⟩ :: rest) = some CErr.panicExclusionNull) ∧
    (∀ rest : List CExclusion, _cli_check_mutual_exclusions 2 [c9a, c9b]
      (⟨"", some "b", false⟩ :: rest) = some CErr.panicExclusionEmpty)) :=
  ⟨by decide, by decide, by decide, rfl, rfl,
    c9_amended_theorem 2 c9a c9b "a" "b" (by decide) (by decide) (by decide) rfl rfl⟩

/-- C5 (amended): for a value that is not option-shaped and at most 1024
characters long, giving it with --opt=value is equivalent to giving it as
the next token, for string, signed-number and unsigned-number descriptors
alike (the equivalence can break for option-shaped or overlong values,
which only the two-token form rejects). -/
theorem c5_amended_theorem (v : String) (hv : ccli__is_option v = false)
    (hlen : v.length ≤ 1024) :
    (ccli_parse_opts [] [c5str] ["prog", "--name=" ++ v] =
      ccli_parse_opts [] [c5str] ["prog", "--name", v]) ∧
    (ccli_parse_opts [] [c5num] ["prog", "--num=" ++ v] =
      ccli_parse_opts [] [c5num] ["prog", "--num", v]) ∧
    (ccli_parse_opts [] [c5unum] ["prog", "--unum=" ++ v] =
      ccli_parse_opts [] [c5unum] ["prog", "--unum", v]) := by
  have hvH : (v == "--help") = false := by
    refine beq_eq_false_iff_ne.mpr (fun h => ?_)
    subst h
    exact absurd hv (by decide)
  have hvh : (v == "-h") = false := by
    refine beq_eq_false_iff_ne.mpr (fun h => ?_)
    subst h
    exact absurd hv (by decide)
  have hnl : ¬(1024 < v.length) := by omega
  have hmkv : String.mk v.data = v := rfl
  have e1 : (ShortOptKind.short_multiple == ShortOptKind.short_single) = false := rfl
  have hfhR : ∀ m : String, (m == "--") = false → (m == "-") = false →
      (m == "--help") = false → (m == "-h") = false →
      ccli__find_help ["prog", m, v] = false := by
    intro m hm1 hm2 hm3 hm4
    show ccli__find_help_go [m, v] = false
    by_cases h2 : v = "--"
    · subst h2
      simp only [ccli__find_help_go, ccli_streq, hm1, hm2, hm3, hm4, Bool.or_false,
        Bool.false_or, if_false, Bool.false_eq_true]
      decide
    · by_cases h3 : v = "-"
      · subst h3
        simp only [ccli__find_help_go, ccli_streq, hm1, hm2, hm3, hm4, Bool.or_false,
          Bool.false_or, if_false, Bool.false_eq_true]
        decide
      · have b2 : (v == "--") = false := beq_eq_false_iff_ne.mpr h2
        have b3 : (v == "-") = false := beq_eq_false_iff_ne.mpr h3
        simp only [ccli__find_help_go, ccli_streq, hm1, hm2, hm3, hm4, b2, b3, hvH, hvh,
          Bool.or_false, Bool.or_self, if_false, Bool.false_eq_true]
  refine ⟨?_, ?_, ?_⟩
  · -- string kind
    have hdE : ("--name=" ++ v).data =
        '-' :: '-' :: 'n' :: 'a' :: 'm' :: 'e' :: '=' :: v.data := by
      simp [String.data_append]
    have hlenE : ("--name=" ++ v).length = 7 + v.length := by rw [String.length_append]; rfl
    have hne : ∀ s : String, s.length < 7 → (("--name=" ++ v) == s) = false := by
      intro s hs
      refine beq_eq_false_iff_ne.mpr (fun h => ?_)
      rw [h] at hlenE
      omega
    have hfhL : ccli__find_help ["prog", "--name=" ++ v] = false := by
      show ccli__find_help_go ["--name=" ++ v] = false
      simp only [ccli__find_help_go, ccli_streq, hne "--" (by decide), hne "-" (by decide),
        hne "--help" (by decide), hne "-h" (by decide), Bool.or_false, if_false,
        Bool.false_eq_true]
    have hidx : ccli_stridx ("--name=" ++ v) '=' = 6 := by rw [ccli_stridx, hdE]; rfl
    have hcontL : ccli_strcontains ("--name=" ++ v) '=' = true := by
      rw [ccli_strcontains, hdE]; rfl
    have htake : List.take (Int.toNat 6) ("--name=" ++ v).data = "--name".data := by
      rw [hdE]; rfl
    have hdrop : List.drop (Int.toNat 6 + 1) ("--name=" ++ v).data = v.data := by
      rw [hdE]; rfl
    have hmk : String.mk ("--name".data) = "--name" := rfl
    have g1 : ccli_option_is_global c5str = true := by decide
    have g2 : (charAt0 "--name" 1 == c5str.short_arg) = false := by decide
    have g3 : ccli__long_opt_eq "--name" c5str.long_arg = true := by decide
    have g4 : (ccli_option_type c5str == ccli_boolean) = false := by decide
    have g5 : (ccli_option_type c5str == ccli_string) = true := by decide
    have hc5p : c5str.params = 2 := by decide
    have hp : (ccli_option_set_matched { c5str with data := CData.strData v }).params =
        c5str.params ||| CCLI_ARG_MAT_MASK := rfl
    have g6 : ccli_option_is_matched
        (ccli_option_set_matched { c5str with data := CData.strData v }) = true := by
      simp only [ccli_option_is_matched]; rw [hp, hc5p]; decide
    have g7 : ccli_option_is_global
        (ccli_option_set_matched { c5str with data := CData.strData v }) = true := by
      simp only [ccli_option_is_global]; rw [hp, hc5p]; decide
    have hval : ccli__validate_options [c5str] = none := by decide
    have hchk : ccli__check_unmatched 1
        [ccli_option_set_matched { c5str with data := CData.strData v }] = none := by
      simp [ccli__check_unmatched, g6, g7]
    have hpe : ccli__parse_equals [c5str] ("--name=" ++ v) 1 =
        Except.ok [ccli_option_set_matched { c5str with data := CData.strData v }] := by
      simp [ccli__parse_equals, ccli__parse_equals_loop, hidx, htake, hdrop, hmk, hmkv,
        g1, g2, g3, g4, g5]
    have hloopL : ccli__parse_loop [] none 1 ["prog", "--name=" ++ v] 2 1 [c5str] =
        Except.ok [ccli_option_set_matched { c5str with data := CData.strData v }] := by
      refine Eq.trans (ccli__parse_loop_step_equals [] none 1 ["prog", "--name=" ++ v] 1 1
        [c5str] _ (by simp) ?_ ?_ ?_) (ccli__parse_loop_done _ _ _ _ _ _ _ (by simp))
      · show (ccli_streq ("--name=" ++ v) "--" || ccli_streq ("--name=" ++ v) "-") = false
        simp [ccli_streq, hne "--" (by decide), hne "-" (by decide)]
      · exact hcontL
      · exact hpe
    have hinner : ccli__parse_opts_inner ["prog", "--name", v] 1 "--name" true
        ShortOptKind.short_multiple false 1 0 [c5str] 1 false =
        Except.ok ([ccli_option_set_matched { c5str with data := CData.strData v }], 2, true) := by
      show ccli__parse_opts_inner ["prog", "--name", v] 1 "--name" true
        ShortOptKind.short_multiple false (0 + 1) 0 [c5str] 1 false = _
      simp only [ccli__parse_opts_inner]
      simp [g1, g3, g4, g5, e1, hv, hnl, List.getD]
    have hloopR : ccli__parse_loop [] none 1 ["prog", "--name", v] 3 1 [c5str] =
        Except.ok [ccli_option_set_matched { c5str with data := CData.strData v }] := by
      refine Eq.trans (ccli__parse_loop_step_inner [] none 1 ["prog", "--name", v] 2 1 2
        [c5str] _ (by simp)
        (show (ccli_streq "--name" "--" || ccli_streq "--name" "-") = false by decide)
        (show ccli_strcontains "--name" '=' = false by decide)
        hinner) (ccli__parse_loop_done _ _ _ _ _ _ _ (by simp))
    rw [ccli_parse_opts_eval2 [c5str] ("--name=" ++ v) _ hval hfhL hloopL,
      ccli_parse_opts_eval3 [c5str] "--name" v _ hval
        (hfhR "--name" (by decide) (by decide) (by decide) (by decide)) hloopR]
  · -- signed integer kind
    have hdE : ("--num=" ++ v).data = '-' :: '-' :: 'n' :: 'u' :: 'm' :: '=' :: v.data := by
      simp [String.data_append]
    have hlenE : ("--num=" ++ v).length = 6 + v.length := by rw [String.length_append]; rfl
    have hne : ∀ s : String, s.length < 6 → (("--num=" ++ v) == s) = false := by
      intro s hs
      refine beq_eq_false_iff_ne.mpr (fun h => ?_)
      rw [h] at hlenE
      omega
    have hneH : (("--num=" ++ v) == "--help") = false := by
      refine beq_eq_false_iff_ne.mpr (fun h => ?_)
      have h2 := congrArg String.data h
      rw [hdE, show "--help".data = ['-', '-', 'h', 'e', 'l', 'p'] from rfl] at h2
      injection h2 with ha h2
      injection h2 with hb h2
      injection h2 with hc h2
      exact absurd hc (by decide)
    have hfhL : ccli__find_help ["prog", "--num=" ++ v] = false := by
      show ccli__find_help_go ["--num=" ++ v] = false
      simp only [ccli__find_help_go, ccli_streq, hne "--" (by decide), hne "-" (by decide),
        hneH, hne "-h" (by decide), Bool.or_false, if_false, Bool.false_eq_true]
    have hidx : ccli_stridx ("--num=" ++ v) '=' = 5 := by rw [ccli_stridx, hdE]; rfl
    have hcontL : ccli_strcontains ("--num=" ++ v) '=' = true := by
      rw [ccli_strcontains, hdE]; rfl
    have htake : List.take (Int.toNat 5) ("--num=" ++ v).data = "--num".data := by
      rw [hdE]; rfl
    have hdrop : List.drop (Int.toNat 5 + 1) ("--num=" ++ v).data = v.data := by
      rw [hdE]; rfl
    have hmk : String.mk ("--num".data) = "--num" := rfl
    have g1 : ccli_option_is_global c5num = true := by decide
    have g2 : (charAt0 "--num" 1 == c5num.short_arg) = false := by decide
    have g3 : ccli__long_opt_eq "--num" c5num.long_arg = true := by decide
    have g4 : (ccli_option_type c5num == ccli_boolean) = false := by decide
    have g5 : (ccli_option_type c5num == ccli_string) = false := by decide
    have g5b : (ccli_option_type c5num == ccli_number) = true := by decide
    have hval : ccli__validate_options [c5num] = none := by decide
    rcases hpt : ccli_try_parse_int v with _ | n
    · -- the value does not parse: both forms die with the same error
      have hpe : ccli__parse_equals [c5num] ("--num=" ++ v) 1 =
          Except.error (CErr.invalidNumber "num" v) := by
        simp [ccli__parse_equals, ccli__parse_equals_loop, hidx, htake, hdrop, hmk, hmkv,
          g1, g2, g3, show ccli__long_opt_eq "--num" "num" = true from by decide,
          g4, g5, g5b, hpt, show c5num.long_arg = "num" from rfl]
      have hloopL : ccli__parse_loop [] none 1 ["prog", "--num=" ++ v] 2 1 [c5num] =
          Except.error (CErr.invalidNumber "num" v) := by
        refine ccli__parse_loop_step_equals_err [] none 1 ["prog", "--num=" ++ v] 1 1
          [c5num] _ (by simp) ?_ ?_ ?_
        · show (ccli_streq ("--num=" ++ v) "--" || ccli_streq ("--num=" ++ v) "-") = false
          simp [ccli_streq, hne "--" (by decide), hne "-" (by decide)]
        · exact hcontL
        · exact hpe
      have hinner : ccli__parse_opts_inner ["prog", "--num", v] 1 "--num" true
          ShortOptKind.short_multiple false 1 0 [c5num] 1 false =
          Except.error (CErr.invalidNumber "num" v) := by
        show ccli__parse_opts_inner ["prog", "--num", v] 1 "--num" true
          ShortOptKind.short_multiple false (0 + 1) 0 [c5num] 1 false = _
        simp only [ccli__parse_opts_inner]
        simp [g1, g3, show ccli__long_opt_eq "--num" "num" = true from by decide,
          g4, g5, g5b, e1, hv, hpt, List.getD, show c5num.long_arg = "num" from rfl]
      have hloopR : ccli__parse_loop [] none 1 ["prog", "--num", v] 3 1 [c5num] =
          Except.error (CErr.invalidNumber "num" v) := by
        refine ccli__parse_loop_step_inner_err [] none 1 ["prog", "--num", v] 2 1
          [c5num] _ (by simp)
          (show (ccli_streq "--num" "--" || ccli_streq "--num" "-") = false by decide)
          (show ccli_strcontains "--num" '=' = false by decide)
          hinner
      rw [ccli_parse_opts_eval2 [c5num] ("--num=" ++ v) _ hval hfhL hloopL,
        ccli_parse_opts_eval3 [c5num] "--num" v _ hval
          (hfhR "--num" (by decide) (by decide) (by decide) (by decide)) hloopR]
    · -- the value parses to n: both forms store n
      have hc5p : c5num.params = 4 := by decide
      have hp : (ccli_option_set_matched { c5num with data := CData.numData n }).params =
          c5num.params ||| CCLI_ARG_MAT_MASK := rfl
      have g6 : ccli_option_is_matched
          (ccli_option_set_matched { c5num with data := CData.numData n }) = true := by
        simp only [ccli_option_is_matched]; rw [hp, hc5p]; decide
      have g7 : ccli_option_is_global
          (ccli_option_set_matched { c5num with data := CData.numData n }) = true := by
        simp only [ccli_option_is_global]; rw [hp, hc5p]; decide
      have hchk : ccli__check_unmatched 1
          [ccli_option_set_matched { c5num with data := CData.numData n }] = none := by
        simp [ccli__check_unmatched, g6, g7]
      have hpe : ccli__parse_equals [c5num] ("--num=" ++ v) 1 =
          Except.ok [ccli_option_set_matched { c5num with data := CData.numData n }] := by
        simp [ccli__parse_equals, ccli__parse_equals_loop, hidx, htake, hdrop, hmk, hmkv,
          g1, g2, g3, g4, g5, g5b, hpt]
      have hloopL : ccli__parse_loop [] none 1 ["prog", "--num=" ++ v] 2 1 [c5num] =
          Except.ok [ccli_option_set_matched { c5num with data := CData.numData n }] := by
        refine Eq.trans (ccli__parse_loop_step_equals [] none 1 ["prog", "--num=" ++ v] 1 1
          [c5num] _ (by simp) ?_ ?_ ?_) (ccli__parse_loop_done _ _ _ _ _ _ _ (by simp))
        · show (ccli_streq ("--num=" ++ v) "--" || ccli_streq ("--num=" ++ v) "-") = false
          simp [ccli_streq, hne "--" (by decide), hne "-" (by decide)]
        · exact hcontL
        · exact hpe
      have hinner : ccli__parse_opts_inner ["prog", "--num", v] 1 "--num" true
          ShortOptKind.short_multiple false 1 0 [c5num] 1 false =
          Except.ok ([ccli_option_set_matched { c5num with data := CData.numData n }], 2, true) := by
        show ccli__parse_opts_inner ["prog", "--num", v] 1 "--num" true
          ShortOptKind.short_multiple false (0 + 1) 0 [c5num] 1 false = _
        simp only [ccli__parse_opts_inner]
        simp [g1, g3, g4, g5, g5b, e1, hv, hpt, List.getD]
      have hloopR : ccli__parse_loop [] none 1 ["prog", "--num", v] 3 1 [c5num] =
          Except.ok [ccli_option_set_matched { c5num with data := CData.numData n }] := by
        refine Eq.trans (ccli__parse_loop_step_inner [] none 1 ["prog", "--num", v] 2 1 2
          [c5num] _ (by simp)
          (show (ccli_streq "--num" "--" || ccli_streq "--num" "-") = false by decide)
          (show ccli_strcontains "--num" '=' = false by decide)
          hinner) (ccli__parse_loop_done _ _ _ _ _ _ _ (by simp))
      rw [ccli_parse_opts_eval2 [c5num] ("--num=" ++ v) _ hval hfhL hloopL,
        ccli_parse_opts_eval3 [c5num] "--num" v _ hval
          (hfhR "--num" (by decide) (by decide) (by decide) (by decide)) hloopR]
  · -- unsigned integer kind
    have hdE : ("--unum=" ++ v).data =
        '-' :: '-' :: 'u' :: 'n' :: 'u' :: 'm' :: '=' :: v.data := by
      simp [String.data_append]
    have hlenE : ("--unum=" ++ v).length = 7 + v.length := by rw [String.length_append]; rfl
    have hne : ∀ s : String, s.length < 7 → (("--unum=" ++ v) == s) = false := by
      intro s hs
      refine beq_eq_false_iff_ne.mpr (fun h => ?_)
      rw [h] at hlenE
      omega
    have hfhL : ccli__find_help ["prog", "--unum=" ++ v] = false := by
      show ccli__find_help_go ["--unum=" ++ v] = false
      simp only [ccli__find_help_go, ccli_streq, hne "--" (by decide), hne "-" (by decide),
        hne "--help" (by decide), hne "-h" (by decide), Bool.or_false, if_false,
        Bool.false_eq_true]
    have hidx : ccli_stridx ("--unum=" ++ v) '=' = 6 := by rw [ccli_stridx, hdE]; rfl
    have hcontL : ccli_strcontains ("--unum=" ++ v) '=' = true := by
      rw [ccli_strcontains, hdE]; rfl
    have htake : List.take (Int.toNat 6) ("--unum=" ++ v).data = "--unum".data := by
      rw [hdE]; rfl
    have hdrop : List.drop (Int.toNat 6 + 1) ("--unum=" ++ v).data = v.data := by
      rw [hdE]; rfl
    have hmk : String.mk ("--unum".data) = "--unum" := rfl
    have g1 : ccli_option_is_global c5unum = true := by decide
    have g2 : (charAt0 "--unum" 1 == c5unum.short_arg) = false := by decide
    have g3 : ccli__long_opt_eq "--unum" c5unum.long_arg = true := by decide
    have g4 : (ccli_option_type c5unum == ccli_boolean) = false := by decide
    have g5 : (ccli_option_type c5unum == ccli_string) = false := by decide
    have g5b : (ccli_option_type c5unum == ccli_number) = false := by decide
    have g5c : (ccli_option_type c5unum == ccli_unumber) = true := by decide
    have hval : ccli__validate_options [c5unum] = none := by decide
    rcases hpt : ccli_try_parse_uint v with _ | n
    · have hpe : ccli__parse_equals [c5unum] ("--unum=" ++ v) 1 =
          Except.error (CErr.invalidNumber "unum" v) := by
        simp [ccli__parse_equals, ccli__parse_equals_loop, hidx, htake, hdrop, hmk, hmkv,
          g1, g2, g3, show ccli__long_opt_eq "--unum" "unum" = true from by decide,
          g4, g5, g5b, g5c, hpt, show c5unum.long_arg = "unum" from rfl]
      have hloopL : ccli__parse_loop [] none 1 ["prog", "--unum=" ++ v] 2 1 [c5unum] =
          Except.error (CErr.invalidNumber "unum" v) := by
        refine ccli__parse_loop_step_equals_err [] none 1 ["prog", "--unum=" ++ v] 1 1
          [c5unum] _ (by simp) ?_ ?_ ?_
        · show (ccli_streq ("--unum=" ++ v) "--" || ccli_streq ("--unum=" ++ v) "-") = false
          simp [ccli_streq, hne "--" (by decide), hne "-" (by decide)]
        · exact hcontL
        · exact hpe
      have hinner : ccli__parse_opts_inner ["prog", "--unum", v] 1 "--unum" true
          ShortOptKind.short_multiple false 1 0 [c5unum] 1 false =
          Except.error (CErr.invalidNumber "unum" v) := by
        show ccli__parse_opts_inner ["prog", "--unum", v] 1 "--unum" true
          ShortOptKind.short_multiple false (0 + 1) 0 [c5unum] 1 false = _
        simp only [ccli__parse_opts_inner]
        simp [g1, g3, show ccli__long_opt_eq "--unum" "unum" = true from by decide,
          g4, g5, g5b, g5c, e1, hv, hpt, List.getD, show c5unum.long_arg = "unum" from rfl]
      have hloopR : ccli__parse_loop [] none 1 ["prog", "--unum", v] 3 1 [c5unum] =
          Except.error (CErr.invalidNumber "unum" v) := by
        refine ccli__parse_loop_step_inner_err [] none 1 ["prog", "--unum", v] 2 1
          [c5unum] _ (by simp)
          (show (ccli_streq "--unum" "--" || ccli_streq "--unum" "-") = false by decide)
          (show ccli_strcontains "--unum" '=' = false by decide)
          hinner
      rw [ccli_parse_opts_eval2 [c5unum] ("--unum=" ++ v) _ hval hfhL hloopL,
        ccli_parse_opts_eval3 [c5unum] "--unum" v _ hval
          (hfhR "--unum" (by decide) (by decide) (by decide) (by decide)) hloopR]
    · have hc5p : c5unum.params = 8 := by decide
      have hp : (ccli_option_set_matched { c5unum with data := CData.unumData n }).params =
          c5unum.params ||| CCLI_ARG_MAT_MASK := rfl
      have g6 : ccli_option_is_matched
          (ccli_option_set_matched { c5unum with data := CData.unumData n }) = true := by
        simp only [ccli_option_is_matched]; rw [hp, hc5p]; decide
      have g7 : ccli_option_is_global
          (ccli_option_set_matched { c5unum with data := CData.unumData n }) = true := by
        simp only [ccli_option_is_global]; rw [hp, hc5p]; decide
      have hchk : ccli__check_unmatched 1
          [ccli_option_set_matched { c5unum with data := CData.unumData n }] = none := by
        simp [ccli__check_unmatched, g6, g7]
      have hpe : ccli__parse_equals [c5unum] ("--unum=" ++ v) 1 =
          Except.ok [ccli_option_set_matched { c5unum with data := CData.unumData n }] := by
        simp [ccli__parse_equals, ccli__parse_equals_loop, hidx, htake, hdrop, hmk, hmkv,
          g1, g2, g3, g4, g5, g5b, g5c, hpt]
      have hloopL : ccli__parse_loop [] none 1 ["prog", "--unum=" ++ v] 2 1 [c5unum] =
          Except.ok [ccli_option_set_matched { c5unum with data := CData.unumData n }] := by
        refine Eq.trans (ccli__parse_loop_step_equals [] none 1 ["prog", "--unum=" ++ v] 1 1
          [c5unum] _ (by simp) ?_ ?_ ?_) (ccli__parse_loop_done _ _ _ _ _ _ _ (by simp))
        · show (ccli_streq ("--unum=" ++ v) "--" || ccli_streq ("--unum=" ++ v) "-") = false
          simp [ccli_streq, hne "--" (by decide), hne "-" (by decide)]
        · exact hcontL
        · exact hpe
      have hinner : ccli__parse_opts_inner ["prog", "--unum", v] 1 "--unum" true
          ShortOptKind.short_multiple false 1 0 [c5unum] 1 false =
          Except.ok ([ccli_option_set_matched { c5unum with data := CData.unumData n }], 2, true) := by
        show ccli__parse_opts_inner ["prog", "--unum", v] 1 "--unum" true
          ShortOptKind.short_multiple false (0 + 1) 0 [c5unum] 1 false = _
        simp only [ccli__parse_opts_inner]
        simp [g1, g3, g4, g5, g5b, g5c, e1, hv, hpt, List.getD]
      have hloopR : ccli__parse_loop [] none 1 ["prog", "--unum", v] 3 1 [c5unum] =
          Except.ok [ccli_option_set_matched { c5unum with data := CData.unumData n }] := by
        refine Eq.trans (ccli__parse_loop_step_inner [] none 1 ["prog", "--unum", v] 2 1 2
          [c5unum] _ (by simp)
          (show (ccli_streq "--unum" "--" || ccli_streq "--unum" "-") = false by decide)
          (show ccli_strcontains "--unum" '=' = false by decide)
          hinner) (ccli__parse_loop_done _ _ _ _ _ _ _ (by simp))
      rw [ccli_parse_opts_eval2 [c5unum] ("--unum=" ++ v) _ hval hfhL hloopL,
        ccli_parse_opts_eval3 [c5unum] "--unum" v _ hval
          (hfhR "--unum" (by decide) (by decide) (by decide) (by decide)) hloopR]

/-- Witness for C5: the plain value "val" parses identically through the
equals form and the two-token form for all three descriptor kinds. -/
theorem c5_amended_witness :
    ccli__is_option "val" = false ∧ ("val" : String).length ≤ 1024 ∧
    ((ccli_parse_opts [] [c5str] ["prog", "--name=" ++ "val"] =
      ccli_parse_opts [] [c5str] ["prog", "--name", "val"]) ∧
    (ccli_parse_opts [] [c5num] ["prog", "--num=" ++ "val"] =
      ccli_parse_opts [] [c5num] ["prog", "--num", "val"]) ∧
    (ccli_parse_opts [] [c5unum] ["prog", "--unum=" ++ "val"] =
      ccli_parse_opts [] [c5unum] ["prog", "--unum", "val"])) :=
  ⟨by decide, by decide, c5_amended_theorem "val" (by decide) (by decide)⟩

/-- C7 (confirmed): with a valid option table, the parser prints help and
stops (returning the untouched table) exactly when some argument after the
program name is "--help" or "-h" with no earlier "--" or "-" sentinel. -/
theorem c7_find_help (subcommands : List CCommand) (options : List COption) (args : List String)
    (hargs : args ≠ []) (hval : ccli__validate_options options = none) :
    (ccli_parse_opts subcommands options args = ParseResult.help options ↔
      ∃ i, ∃ h : i < (args.drop 1).length,
        ((args.drop 1).get ⟨i, h⟩ = "--help" ∨ (args.drop 1).get ⟨i, h⟩ = "-h") ∧
        ∀ j, ∀ hj : j < (args.drop 1).length, j < i →
          (args.drop 1).get ⟨j, hj⟩ ≠ "--" ∧ (args.drop 1).get ⟨j, hj⟩ ≠ "-") := by
  rw [← ccli__find_help_go_iff]
  unfold ccli_parse_opts
  have hlen : (args.length == 0) = false := by
    simpa using fun h => hargs (List.length_eq_zero.mp h)
  rw [hlen]
  simp only [Bool.false_eq_true, if_false, hval]
  by_cases hfh : ccli__find_help args = true
  · rw [if_pos hfh]
    simp only [true_iff]
    exact hfh
  · rw [if_neg hfh]
    constructor
    · intro hcontra
      exact absurd hcontra (ccli__finish_ne_help _ _ _ _)
    · intro h
      exact absurd h hfh

/-- Witness for C7: on arguments ["prog", "--help"] with a single boolean
descriptor, the parser returns the help result. -/
theorem c7_find_help_witness :
    (["prog", "--help"] : List String) ≠ [] ∧
    ccli__validate_options [c7opt] = none ∧
    ccli_parse_opts [] [c7opt] ["prog", "--help"] = ParseResult.help [c7opt] :=
  ⟨by decide, rfl,
    (c7_find_help [] [c7opt] ["prog", "--help"] (by decide) rfl).mpr
      ⟨0, by decide, Or.inl rfl, fun j hj hj0 => absurd hj0 (Nat.not_lt_zero j)⟩⟩
